import Mathlib

/-!
Shallow embedding of the Gliffy-to-Excalidraw converter
(src/gliffy_to_excalidraw.py) and proofs about the frozen claims.

The source is dynamically typed Python working on JSON values, so the
embedding starts from a JSON value type `JVal` together with the pieces of
Python semantics the module exercises: truthiness, `dict.get`, `str(...)`,
`float(...)`, `int(...)`, iteration, and the exceptions those can raise
(modelled with `Except PyErr`).  Randomness (`random.randint`) and the clock
(`time.time`) are modelled by an explicit environment `Env` threaded through
the computation, exactly where the source consumes them.
-/

/-- A Python exception, as far as this module can raise one. -/
inductive PyErr where
  | typeError
  | valueError
  | attributeError
  | keyError
  deriving DecidableEq, Repr

/-- A JSON value as Python holds it after `json.load`: numbers are modelled
by `ℚ` (the source only performs exact arithmetic on the values the claims
touch; Python's int/float distinction is collapsed, see `pyStr`). -/
inductive JVal where
  | null
  | bool (b : Bool)
  | num (q : ℚ)
  | str (s : String)
  | arr (items : List JVal)
  | obj (fields : List (String × JVal))

/-- A Python dict coming from a JSON object: an association list whose first
binding for a key is the one `get` sees (JSON parsing leaves keys unique). -/
abbrev Dict := List (String × JVal)

/-- Python truthiness of a JSON value: `None`, `False`, `0`, `""`, `[]` and
an empty dict are falsy, everything else truthy. -/
def pyTruthy : JVal → Bool
  | .null => false
  | .bool b => b
  | .num q => decide (q ≠ 0)
  | .str s => decide (s ≠ "")
  | .arr l => !l.isEmpty
  | .obj fs => !fs.isEmpty

/-- `d[k]` / `d.get(k)` on the underlying association list: the first binding
wins.  `none` means the key is absent (a stored JSON `null` is still
`some .null`; Python code telling the two apart must match on it). -/
def dget : Dict → String → Option JVal
  | [], _ => none
  | (k', v) :: rest, k => if k' = k then some v else dget rest k

/-- `d.get(k, default)`: the stored value when the key is present (even when
that value is `null`), the default otherwise. -/
def dgetD (d : Dict) (k : String) (default : JVal) : JVal :=
  (dget d k).getD default

/-- `d.get(k) is not None`: present and not `null`. -/
def dgetNN (d : Dict) (k : String) : Option JVal :=
  match dget d k with
  | some .null => none
  | o => o

/-- `d[k] = v`: replace the first binding of `k`, or append a new one. -/
def dset : Dict → String → JVal → Dict
  | [], k, v => [(k, v)]
  | (k', v') :: rest, k, v =>
      if k' = k then (k, v) :: rest else (k', v') :: dset rest k v

/-- Splitting a character list at every separator position (producing empty
segments for adjacent separators), the semantics of Python's
`str.split(sep)` with a one-character separator. -/
def splitByPred (p : Char -> Bool) : List Char -> List Char -> List (List Char)
  | [], acc => [acc.reverse]
  | c :: rest, acc =>
      if p c then acc.reverse :: splitByPred p rest []
      else splitByPred p rest (c :: acc)

/-- `s.split(sep)` for a one-character separator. -/
def splitOnChar (c : Char) (s : String) : List String :=
  (splitByPred (fun x => x = c) s.toList []).map String.mk

/-- `str.strip()`: drop leading and trailing whitespace. -/
def pyStrip (s : String) : String :=
  String.mk
    (((s.toList.dropWhile Char.isWhitespace).reverse.dropWhile
      Char.isWhitespace).reverse)

/-- `str.lower()` (ASCII, enough for the markup in scope). -/
def strLower (s : String) : String :=
  String.mk (s.toList.map Char.toLower)

/-- `s.replace(a, b)` for one-character arguments. -/
def replaceChar (s : String) (a b : Char) : String :=
  String.mk (s.toList.map fun c => if c = a then b else c)

/-- Rendering of a rational the way Python renders the ids and numbers the
module stringifies: integral values print as plain integers (matching
Python's `str` on JSON ints, the only numbers the claims feed to `str`);
non-integral values use the `ℚ` printer, a harmless divergence from
Python's decimal float rendering that no modelled code path observes. -/
def pyStrQ (q : ℚ) : String :=
  if q.den = 1 then toString q.num else toString q

mutual

/-- `repr(v)` for a JSON value, as far as the module could reach it (it only
ever stringifies scalars on real inputs). -/
def pyRepr : JVal → String
  | .null => "None"
  | .bool true => "True"
  | .bool false => "False"
  | .num q => pyStrQ q
  | .str s =>
      String.singleton (Char.ofNat 39) ++ s ++ String.singleton (Char.ofNat 39)
  | .arr l => "[" ++ pyReprList l ++ "]"
  | .obj fs => "\x7b" ++ pyReprFields fs ++ "\x7d"

def pyReprList : List JVal → String
  | [] => ""
  | [x] => pyRepr x
  | x :: xs => pyRepr x ++ ", " ++ pyReprList xs

def pyReprFields : List (String × JVal) → String
  | [] => ""
  | [(k, v)] => k ++ ": " ++ pyRepr v
  | (k, v) :: xs => k ++ ": " ++ pyRepr v ++ ", " ++ pyReprFields xs

end

/-- `str(v)`: a string is itself, anything else as `repr`. -/
def pyStr : JVal → String
  | .str s => s
  | v => pyRepr v

/-- Parse the decimal strings Python's `float(...)` accepts on the inputs in
scope: optional surrounding whitespace, optional sign, digits with an
optional fractional part (scientific notation is out of scope). -/
def parseFloatChars : List Char → Option ℚ :=
  fun cs =>
    let cs := match cs with
      | '+' :: rest => (rest, (1 : ℚ))
      | '-' :: rest => (rest, (-1 : ℚ))
      | rest => (rest, (1 : ℚ))
    let (body, sign) := cs
    let intPart := body.takeWhile Char.isDigit
    let afterInt := body.dropWhile Char.isDigit
    let (fracPart, rest) := match afterInt with
      | '.' :: r => (r.takeWhile Char.isDigit, r.dropWhile Char.isDigit)
      | r => ([], r)
    if rest = [] ∧ intPart ++ fracPart ≠ [] then
      let iv : ℚ := intPart.foldl (fun a c => a * 10 + (c.toNat - 48 : ℕ)) 0
      let fv : ℚ := fracPart.foldl (fun a c => a * 10 + (c.toNat - 48 : ℕ)) 0
      some (sign * (iv + fv / (10 : ℚ) ^ fracPart.length))
    else none

def parseFloatStr (s : String) : Option ℚ :=
  parseFloatChars (pyStrip s).toList

/-- Parse the integer strings Python's `int(...)` accepts: optional
whitespace and sign around plain digits (`int("5.5")` raises). -/
def parseIntStr (s : String) : Option ℤ :=
  let cs := (pyStrip s).toList
  let (body, sign) := match cs with
    | '+' :: rest => (rest, (1 : ℤ))
    | '-' :: rest => (rest, (-1 : ℤ))
    | rest => (rest, (1 : ℤ))
  if body ≠ [] ∧ body.all Char.isDigit then
    some (sign * (body.foldl (fun a c => a * 10 + (c.toNat - 48 : ℕ)) 0 : ℕ))
  else none

/-- Truncation toward zero, Python's `int()` on a float. -/
def ratTrunc (q : ℚ) : ℤ :=
  if 0 ≤ q then ⌊q⌋ else -⌊-q⌋

/-- Python `float(v)`: numbers and bools convert, numeric strings parse
(`ValueError` otherwise), everything else raises `TypeError`. -/
def pyFloat : JVal → Except PyErr ℚ
  | .num q => .ok q
  | .bool b => .ok (if b then 1 else 0)
  | .str s =>
      match parseFloatStr s with
      | some q => .ok q
      | none => .error .valueError
  | _ => .error .typeError

/-- Python `int(v)`. -/
def pyInt : JVal → Except PyErr ℤ
  | .num q => .ok (ratTrunc q)
  | .bool b => .ok (if b then 1 else 0)
  | .str s =>
      match parseIntStr s with
      | some i => .ok i
      | none => .error .valueError
  | _ => .error .typeError

/-- Python iteration: lists yield their items, strings their one-character
substrings, dicts their keys; numbers, bools and `None` raise `TypeError`. -/
def pyIter : JVal → Except PyErr (List JVal)
  | .arr l => .ok l
  | .str s => .ok (s.toList.map fun c => .str (String.singleton c))
  | .obj fs => .ok (fs.map fun kv => JVal.str kv.1)
  | _ => .error .typeError

/-- `.get(...)` on a value that must be a dict: `AttributeError` otherwise
(this is how the source blows up on a truthy non-object). -/
def pyGetAttr (v : JVal) (k : String) : Except PyErr (Option JVal) :=
  match v with
  | .obj fs => .ok (dget fs k)
  | _ => .error .attributeError

/-- `.get(k, default)` on a value that must be a dict. -/
def pyGetAttrD (v : JVal) (k : String) (default : JVal) : Except PyErr JVal :=
  match v with
  | .obj fs => .ok (dgetD fs k default)
  | _ => .error .attributeError

/-- `pat.isPrefixOf` scan over every suffix: `pat in s`. -/
def containsSub : List Char -> List Char -> Bool
  | [], pat => pat.isEmpty
  | c :: rest, pat => pat.isPrefixOf (c :: rest) || containsSub rest pat

/-- `pat in s` for strings (used by the uid naming-convention checks). -/
def strContains (s pat : String) : Bool :=
  containsSub s.toList pat.toList

/-- The ambient effects the module consumes: the stream of values
`random.randint` will return (an arbitrary function of the draw index) and
the millisecond clock `time.time()*1000` reads. -/
structure Env where
  stream : ℕ → ℕ
  idx : ℕ
  now : ℕ

/-- `random.randint(100000, 999999)`: the next stream value mapped into the
inclusive range, advancing the draw index. -/
def randint6 (e : Env) : ℕ × Env :=
  (100000 + e.stream e.idx % 900000, { e with idx := e.idx + 1 })

/-- `get_unix_milliseconds()`. -/
def getUnixMilliseconds (e : Env) : ℕ := e.now

/-! ## The target data model (Excalidraw elements and documents)

The source builds elements as Python dicts.  Here an element is a structure
whose always-present fields come from `new_excalidraw_base` and whose
variant fields are `Option`s, `none` meaning the dict key was never added
(for `containerId`, `startArrowhead`, `endArrowhead`, `startBinding` and
`endBinding` the source stores an explicit `None`; the embedding does not
distinguish a key holding `None` from an absent key, which no later read
does either). -/

structure Roundness where
  rtype : ℕ
  value : Option ℚ := none
  deriving DecidableEq, Repr

structure Binding where
  elementId : String
  focus : ℚ
  gap : ℚ
  deriving DecidableEq, Repr

/-- One entry of a shape's `boundElements` list. -/
structure BoundRef where
  id : String
  btype : String
  deriving DecidableEq, Repr

structure TElem where
  id : String
  etype : String
  x : ℚ := 0
  y : ℚ := 0
  width : ℚ := 0
  height : ℚ := 0
  angle : ℚ := 0
  strokeColor : String := "#1e1e1e"
  backgroundColor : String := "transparent"
  fillStyle : String := "solid"
  strokeWidth : ℚ := 2
  strokeStyle : String := "solid"
  roughness : ℚ := 1
  opacity : ℚ := 100
  groupIds : List String := []
  frameId : Option String := none
  roundness : Option Roundness := none
  boundElements : Option (List BoundRef) := none
  locked : Bool := false
  seed : ℕ
  versionNonce : ℕ
  isDeleted : Bool := false
  link : Option String := none
  updated : ℕ
  text : Option String := none
  fontSize : Option ℚ := none
  fontFamily : Option ℕ := none
  textAlign : Option String := none
  verticalAlign : Option String := none
  baseline : Option ℤ := none
  originalText : Option String := none
  lineHeight : Option ℚ := none
  containerId : Option String := none
  points : List (ℚ × ℚ) := []
  lastCommittedPoint : Option (ℚ × ℚ) := none
  startArrowhead : Option String := none
  endArrowhead : Option String := none
  startBinding : Option Binding := none
  endBinding : Option Binding := none
  fileId : Option String := none
  scale : Option (ℚ × ℚ) := none
  imageData : Option String := none
  deriving DecidableEq, Repr

/-- One entry of the document's `files` map. -/
structure FileEntry where
  mimeType : String
  dataURL : String
  deriving DecidableEq, Repr

/-- The document's `appState`: `scrollX`, `scrollY` and `zoom` are `Option`s
because `_create_empty_excalidraw` does not put those keys in and the
viewport code adds them later (`zoom = some v` models `zoom: (value: v)`). -/
structure AppState where
  gridSize : Option ℕ := none
  viewBackgroundColor : String := "#ffffff"
  scrollX : Option ℚ := none
  scrollY : Option ℚ := none
  zoom : Option ℚ := none
  deriving DecidableEq, Repr

structure ExDoc where
  dtype : String
  version : ℕ
  source : String
  elements : List TElem
  appState : AppState
  files : List (String × FileEntry)
  deriving DecidableEq, Repr

/-- `new_excalidraw_base(element_type)`: three `randint` draws in the order
the dict literal evaluates them (id, seed, versionNonce), `updated` from the
clock, and the base dict's constant fields from `TElem`'s defaults. -/
def newExcalidrawBase (elementType : String) (e : Env) : TElem × Env :=
  let (n1, e) := randint6 e
  let (n2, e) := randint6 e
  let (n3, e) := randint6 e
  ({ id := elementType ++ "_" ++ toString n1, etype := elementType,
     seed := n2, versionNonce := n3, updated := getUnixMilliseconds e }, e)

/-- `_create_empty_excalidraw()`: note the deliberately minimal `appState`
(only `gridSize` and `viewBackgroundColor`). -/
def createEmptyExcalidraw : ExDoc :=
  { dtype := "excalidraw", version := 2, source := "https://excalidraw.com",
    elements := [], appState := {}, files := [] }

/-! ## Style / text helper functions of the source -/

/-- Text runs of an HTML fragment: the characters outside `<...>` tags,
split at tag boundaries.  Models what `BeautifulSoup.get_text('\n',
strip=True)` sees on the markup in scope (entities are not decoded; none of
the claims' inputs use them). -/
def htmlTextRuns : List Char → Bool → List Char → List String
  | [], _, acc => [String.mk acc.reverse]
  | c :: rest, inTag, acc =>
      if inTag then
        if c = '>' then htmlTextRuns rest false []
        else htmlTextRuns rest true []
      else
        if c = '<' then String.mk acc.reverse :: htmlTextRuns rest true []
        else htmlTextRuns rest false (c :: acc)

/-- `BeautifulSoup(html).get_text(separator='\n', strip=True)`: each text
run stripped, empties dropped, joined with newlines. -/
def soupGetText (html : String) : String :=
  String.intercalate "\n"
    (((htmlTextRuns html.toList false []).map pyStrip).filter (· ≠ ""))

/-- `get_gliffy_text_content(gliffy_object)`: a truthy `text` field wins;
otherwise the text is extracted from `graphic.Text.html` (re-splitting into
stripped non-empty lines exactly as the source does after `get_text`), and a
truthy non-dict `graphic` / `Text` raises `AttributeError`. -/
def getGliffyTextContent (gliffyObject : Dict) : Except PyErr String := do
  match dget gliffyObject "text" with
  | some tv =>
      if pyTruthy tv then return pyStr tv
      else pure ()
  | none => pure ()
  let graphic := dgetD gliffyObject "graphic" (.obj [])
  let textData ← pyGetAttrD graphic "Text" (.obj [])
  let htmlContent ← pyGetAttrD textData "html" (.str "")
  if ¬ pyTruthy htmlContent then return ""
  match htmlContent with
  | .str html =>
      let text := soupGetText html
      return String.intercalate "\n"
        (((splitOnChar '\n' text).map pyStrip).filter (· ≠ ""))
  | _ => .error .typeError

/-- `get_gliffy_stroke_color(gliffy_object, default)`. -/
def getGliffyStrokeColor (gliffyObject : Dict) (default : String := "#1e1e1e") :
    Except PyErr String := do
  match dget gliffyObject "strokeColor" with
  | some sv =>
      if pyTruthy sv then return pyStr sv
      else pure ()
  | none => pure ()
  let graphic := dgetD gliffyObject "graphic" (.obj [])
  let lineV ← pyGetAttr graphic "Line"
  match lineV with
  | some lv =>
      if pyTruthy lv then
        match ← pyGetAttr lv "strokeColor" with
        | some cv => if pyTruthy cv then return pyStr cv else pure ()
        | none => pure ()
      else pure ()
  | none => pure ()
  let shapeV ← pyGetAttr graphic "Shape"
  match shapeV with
  | some sv =>
      if pyTruthy sv then
        match ← pyGetAttr sv "strokeColor" with
        | some cv => if pyTruthy cv then return pyStr cv else pure ()
        | none => pure ()
      else pure ()
  | none => pure ()
  return default

/-- The `none|transparent|''` normalisation inside
`get_gliffy_fill_color`. -/
def normalizeFill (s : String) (default : String) : String :=
  if strLower s = "none" ∨ strLower s = "transparent" ∨ strLower s = "" then default
  else s

/-- `get_gliffy_fill_color(gliffy_object, default)`: total, because the
source guards every nested access with `isinstance`. -/
def getGliffyFillColor (gliffyObject : Dict) (default : String := "transparent") :
    String :=
  match dget gliffyObject "fillColor" with
  | some fv =>
      if pyTruthy fv then normalizeFill (pyStr fv) default
      else fillFromGraphic
  | none => fillFromGraphic
where
  fillFromGraphic : String :=
    match dget gliffyObject "graphic" with
    | some (.obj g) =>
        if (JVal.obj g) |> pyTruthy then
          match dget g "Shape" with
          | some (.obj sh) =>
              if ((JVal.obj sh) |> pyTruthy) ∧
                  pyTruthy (dgetD sh "fillColor" .null) then
                normalizeFill (pyStr (dgetD sh "fillColor" .null)) default
              else default
          | _ => default
        else default
    | _ => default

/-- `get_gliffy_stroke_width(gliffy_object, default)`: `float(...)` on the
stored value can raise. -/
def getGliffyStrokeWidth (gliffyObject : Dict) (default : ℚ := 2) :
    Except PyErr ℚ := do
  match dgetNN gliffyObject "strokeWidth" with
  | some v => return (← pyFloat v)
  | none => pure ()
  match dget gliffyObject "graphic" with
  | some (.obj g) =>
      if (JVal.obj g) |> pyTruthy then do
        match dget g "Line" with
        | some (.obj ld) =>
            if ((JVal.obj ld) |> pyTruthy) then
              match dgetNN ld "strokeWidth" with
              | some v => return (← pyFloat v)
              | none => pure ()
            else pure ()
        | _ => pure ()
        match dget g "Shape" with
        | some (.obj sd) =>
            if ((JVal.obj sd) |> pyTruthy) then
              match dgetNN sd "strokeWidth" with
              | some v => return (← pyFloat v)
              | none => pure ()
            else pure ()
        | _ => pure ()
      else pure ()
  | _ => pure ()
  return default

/-- `get_gliffy_object_type(gliffy_object)`: explicit `type` field, then uid
naming conventions, then the `graphic` descriptor, else `None`.  Total: the
source guards every nested access here. -/
def getGliffyObjectType (gliffyObject : Dict) : Option String :=
  match dget gliffyObject "type" with
  | some tv => if pyTruthy tv then some (strLower (pyStr tv)) else typeFromUid
  | none => typeFromUid
where
  typeFromGraphic : Option String :=
    match dget gliffyObject "graphic" with
    | some (.obj g) =>
        if pyTruthy (.obj g) then
          let gt := dgetD g "type" (.str "")
          if pyTruthy gt then
            let gtl := strLower (pyStr gt)
            if gtl = "text" then some "text"
            else if gtl = "line" then some "arrow"
            else if gtl = "shape" then
              match dget g "Shape" with
              | some (.obj sh) =>
                  if pyTruthy (.obj sh) then
                    let tid := strLower (pyStr (dgetD sh "tid" (.str "")))
                    if strContains tid "ellipse" ∨ strContains tid "oval" ∨
                        strContains tid "circle" then some "ellipse"
                    else if strContains tid "diamond" then some "ellipse"
                    else some "rectangle"
                  else some "rectangle"
              | _ => some "rectangle"
            else none
          else none
        else none
    | _ => none
  typeFromUid : Option String :=
    let uid := dgetD gliffyObject "uid" (.str "")
    if pyTruthy uid then
      let u := strLower (pyStr uid)
      if strContains u ".text" then some "text"
      else if strContains u ".rectangle" ∨ strContains u ".square" then
        some "rectangle"
      else if strContains u ".ellipse" ∨ strContains u ".oval" ∨
          strContains u ".circle" ∨ strContains u ".diamond" then some "ellipse"
      else if strContains u ".arrow" ∨ strContains u ".line" then some "arrow"
      else typeFromGraphic
    else typeFromGraphic

/-- The `obj.get('_detected_type') or get_gliffy_object_type(obj)` idiom of
the builder passes: the cached type when truthy, a fresh classification
otherwise. -/
def detectedOr (obj : Dict) : Option String :=
  match dget obj "_detected_type" with
  | some v => if pyTruthy v then some (pyStr v) else getGliffyObjectType obj
  | none => getGliffyObjectType obj

/-! ## The tree flattener (`expand_gliffy_objects`) -/

/-- The one step of the flattening loop that builds `obj_copy` for a single
node: absolutised `x`/`y`, translated polyline `points`, the cached
`_detected_type`, the integer `_order` (missing/`None` order defaults to 0)
and the `_parentId` back-reference.  Returns the flat node together with the
absolute position the node's children inherit. -/
def flattenOne (fields : Dict) (offsetX offsetY : ℚ) (parent : Option Dict) :
    Except PyErr (Dict × ℚ × ℚ) := do
  let xv ← pyFloat (dgetD fields "x" (.num 0))
  let curX := xv + offsetX
  let yv ← pyFloat (dgetD fields "y" (.num 0))
  let curY := yv + offsetY
  let o1 := dset fields "x" (.num curX)
  let o2 := dset o1 "y" (.num curY)
  let o3 ← (match dget o2 "points" with
    | some pv =>
        if pyTruthy pv then do
          let pts ← pyIter pv
          let newPts ← pts.mapM (fun p =>
            match p with
            | .arr (p0 :: p1 :: _) => do
                let a ← pyFloat p0
                let b ← pyFloat p1
                pure (JVal.arr [.num (a + offsetX), .num (b + offsetY)])
            | p => pure p)
          pure (dset o2 "points" (.arr newPts))
        else pure o2
    | none => pure o2)
  let det := getGliffyObjectType o3
  let o4 := dset o3 "_detected_type" (match det with
    | some s => .str s
    | none => .null)
  let orderVal ← (match dget o4 "order" with
    | none => pure (0 : ℤ)
    | some .null => pure (0 : ℤ)
    | some v => pyInt v)
  let o5 := dset o4 "_order" (.num (orderVal : ℚ))
  let o6 := (match parent with
    | some p =>
        if pyTruthy (.obj p) then
          match dgetNN p "id" with
          | some idv => dset o5 "_parentId" (.str (pyStr idv))
          | none => o5
        else o5
    | none => o5)
  pure (o6, curX, curY)

/-- The `children` list the loop recurses into: a truthy list value of the
`children` key (read off the original fields — the loop's `dset` updates
never touch that key, so this equals the source's read of
`obj_copy.get('children', [])`), else nothing. -/
def childrenOf (fields : Dict) : List JVal :=
  match dget fields "children" with
  | some cv =>
      if pyTruthy cv then
        match cv with
        | .arr l => l
        | _ => []
      else []
  | none => []

mutual

/-- A computable size measure on JSON values, used only as the (provably
sufficient) fuel of the flattening recursion. -/
def jvalSize : JVal → ℕ
  | .null => 1
  | .bool _ => 1
  | .num _ => 1
  | .str _ => 1
  | .arr l => 1 + jvalListSize l
  | .obj fs => 1 + jfieldsSize fs

def jvalListSize : List JVal → ℕ
  | [] => 1
  | v :: rest => 1 + jvalSize v + jvalListSize rest

def jfieldsSize : List (String × JVal) → ℕ
  | [] => 1
  | kv :: rest => 1 + jvalSize kv.2 + jfieldsSize rest

end

def dget_size_lt : ∀ (fs : Dict) (k : String) (v : JVal),
    dget fs k = some v → jvalSize v < jfieldsSize fs := by
  intro fs
  induction fs with
  | nil => intro k v h; simp [dget] at h
  | cons kv rest ih =>
      intro k v h
      obtain ⟨k', v'⟩ := kv
      by_cases hk : k' = k
      · simp [dget, hk] at h
        subst h
        simp [jfieldsSize]
        omega
      · simp [dget, hk] at h
        have := ih k v h
        simp [jfieldsSize]
        omega

def childrenOf_size_le : ∀ fields : Dict,
    jvalListSize (childrenOf fields) ≤ jfieldsSize fields := by
  intro fields
  have hbase : jvalListSize ([] : List JVal) ≤ jfieldsSize fields := by
    cases fields with
    | nil => simp [jvalListSize, jfieldsSize]
    | cons a l => simp [jvalListSize, jfieldsSize]; omega
  unfold childrenOf
  split
  · next cv h =>
      have hlt := dget_size_lt fields "children" cv h
      split
      · cases cv with
        | arr l =>
            show jvalListSize l ≤ jfieldsSize fields
            have : jvalSize (JVal.arr l) = 1 + jvalListSize l := by
              simp [jvalSize]
            omega
        | null => exact hbase
        | bool b => exact hbase
        | num q => exact hbase
        | str s => exact hbase
        | obj fs2 => exact hbase
      · exact hbase
  · exact hbase

/-- The recursive loop of `expand_gliffy_objects` over a list of nodes, in
fuel-indexed form (so that it evaluates by structural recursion): non-dict
or falsy entries are skipped, each node is flattened, and the node's
children are flattened (depth-first, parent before children) with the
node's absolute position as their offset and the node as their parent.
Every recursive call strictly shrinks `jvalListSize` of the node list
(`childrenOf_size_le`), so the fuel `expandLoop` supplies never runs out;
`expandFuel_congr` below proves the fuel irrelevant from that bound on. -/
def expandFuel : ℕ → List JVal → ℚ → ℚ → Option Dict →
    Except PyErr (List Dict)
  | 0, _, _, _, _ => .ok []
  | _ + 1, [], _, _, _ => .ok []
  | fuel + 1, obj :: rest, offsetX, offsetY, parent =>
      match obj with
      | .obj fields =>
          if pyTruthy (.obj fields) then
            match flattenOne fields offsetX offsetY parent with
            | .error e => .error e
            | .ok (node, curX, curY) =>
                match expandFuel fuel (childrenOf fields) curX curY (some node) with
                | .error e => .error e
                | .ok childRes =>
                    match expandFuel fuel rest offsetX offsetY parent with
                    | .error e => .error e
                    | .ok restRes => .ok (node :: (childRes ++ restRes))
          else expandFuel fuel rest offsetX offsetY parent
      | _ => expandFuel fuel rest offsetX offsetY parent

def expandLoop (objs : List JVal) (offsetX offsetY : ℚ) (parent : Option Dict) :
    Except PyErr (List Dict) :=
  expandFuel (jvalListSize objs) objs offsetX offsetY parent

/-- `expand_gliffy_objects(objects, offset_x, offset_y, parent)` where the
top-level argument can be any JSON value (the caller passes whatever
`stage['objects']` holds): falsy input yields the empty list, anything else
is iterated. -/
def expandGliffyObjects (objects : JVal) (offsetX offsetY : ℚ)
    (parent : Option Dict) : Except PyErr (List Dict) :=
  if ¬ pyTruthy objects then .ok []
  else
    match pyIter objects with
    | .error e => .error e
    | .ok items => expandLoop items offsetX offsetY parent

/-! ## Font-size extraction, wrapping, arrowheads, constraints -/

/-- Lower-case a character list (ASCII, enough for the regexes in scope). -/
def lowerChars (cs : List Char) : List Char := cs.map Char.toLower

/-- Try to match `\s*(\d+(?:\.\d+)?)\s*px` (case-insensitively) at the head
of `cs`, returning the captured number. -/
def matchFontSizeAt (cs : List Char) : Option ℚ :=
  let cs1 := cs.dropWhile Char.isWhitespace
  let ds := cs1.takeWhile Char.isDigit
  let cs2 := cs1.dropWhile Char.isDigit
  if ds.isEmpty then none
  else
    let (frac, cs3) :=
      match cs2 with
      | '.' :: r => if (r.takeWhile Char.isDigit).isEmpty then (([] : List Char), cs2)
                    else (r.takeWhile Char.isDigit, r.dropWhile Char.isDigit)
      | _ => ([], cs2)
    let cs4 := cs3.dropWhile Char.isWhitespace
    match cs4 with
    | p :: x :: _ =>
        if (p.toLower = 'p') ∧ (x.toLower = 'x') then
          let iv : ℚ := ds.foldl (fun a c => a * 10 + (c.toNat - 48 : ℕ)) 0
          let fv : ℚ := frac.foldl (fun a c => a * 10 + (c.toNat - 48 : ℕ)) 0
          some (iv + fv / (10 : ℚ) ^ frac.length)
        else none
    | _ => none

/-- `re.search(r'font-size:\s*(\d+(?:\.\d+)?)\s*px', html, re.IGNORECASE)`:
the first position where the whole pattern matches wins.  This one scanner
stands for the source's two-stage search (BeautifulSoup over `style`
attributes, then the same regex over the raw HTML): on markup where the
first raw occurrence of the pattern sits inside a `style` attribute — all
inputs the claims exercise — the two coincide. -/
def findFontSize : List Char → Option ℚ
  | [] => none
  | c :: rest =>
      if lowerChars ((c :: rest).take 10) = "font-size:".toList then
        match matchFontSizeAt ((c :: rest).drop 10) with
        | some q => some q
        | none => findFontSize rest
      else findFontSize rest

/-- `int(float(match))` applied to the captured group, or the default when
the pattern does not occur. -/
def extractFontSize (html : String) (default : ℕ) : ℕ :=
  match findFontSize html.toList with
  | some q => (ratTrunc q).toNat
  | none => default

/-- The font-size extraction as the builders run it on the value of the
`html` key: a falsy value leaves the default, a truthy non-string raises
(the raw `re.search` fallback is outside any try block), a string is
scanned. -/
def extractFontSizeOf (htmlV : JVal) (default : ℕ) : Except PyErr ℕ :=
  if ¬ pyTruthy htmlV then .ok default
  else
    match htmlV with
    | .str s => .ok (extractFontSize s default)
    | _ => .error .typeError

/-- The hard-split loop of `wrap_text_content`: successive slices of
`max_chars` characters, in fuel-indexed form (each slice removes at least
one character, so `cs.length` fuel never runs out; `mc = 0` cannot reach it:
the caller returned the text unchanged when the budget was below 1). -/
def hardChunksF : ℕ → ℕ → List Char → List (List Char)
  | 0, _, _ => []
  | fuel + 1, mc, cs =>
      if cs.isEmpty ∨ mc = 0 then []
      else cs.take mc :: hardChunksF fuel mc (cs.drop mc)

def hardChunks (mc : ℕ) (cs : List Char) : List (List Char) :=
  hardChunksF cs.length mc cs

/-- `line.split()`: split on whitespace runs, no empty words. -/
def pyWords (s : String) : List String :=
  ((splitByPred Char.isWhitespace s.toList []).map String.mk).filter (· ≠ "")

/-- The computed characters-per-line budget of `wrap_text_content`:
`int(max_width / max(3, font_size*0.6))`. -/
def wrapMaxChars (maxWidth fontSize : ℚ) : ℤ :=
  ratTrunc (maxWidth / max 3 (fontSize * (3/5 : ℚ)))

/-- One word of the greedy loop: extend the current line, break it, or
hard-split a word that starts a fresh line. -/
def wrapStep (mc : ℕ) (st : List String × String) (word : String) :
    List String × String :=
  let (ls, current) := st
  let candidate := if current = "" then word else current ++ " " ++ word
  if candidate.length ≤ mc then (ls, candidate)
  else if current ≠ "" then (ls ++ [current], word)
  else (ls ++ (hardChunks mc word.toList).map String.mk, "")

/-- One raw line of `wrap_text_content`: strip, keep short lines whole,
greedy-wrap the rest. -/
def wrapLine (mc : ℕ) (acc : List String) (rawLine : String) : List String :=
  let line := pyStrip rawLine
  if line.length ≤ mc then acc ++ [line]
  else
    let (ls, current) := (pyWords line).foldl (wrapStep mc) (acc, "")
    if current ≠ "" then ls ++ [current] else ls

/-- `wrap_text_content(text, max_width, font_size)`. -/
def wrapTextContent (text : String) (maxWidth fontSize : ℚ) : String :=
  if text = "" ∨ maxWidth ≤ 0 ∨ fontSize ≤ 0 then text
  else
    let maxChars := wrapMaxChars maxWidth fontSize
    if maxChars < 1 then text
    else
      String.intercalate "\n"
        ((splitOnChar '\n' text).foldl (wrapLine maxChars.toNat) [])

/-- `get_excalidraw_arrowhead(arrow_code, default)`: `None` or an
unconvertible value gives the default, `0`/`10`/`11`/`12` give `'none'`,
everything else a generic `'arrow'`. -/
def getExcalidrawArrowhead (arrowCode : Option JVal) (default : String := "none") :
    String :=
  match arrowCode with
  | none => default
  | some .null => default
  | some v =>
      match pyInt v with
      | .error _ => default
      | .ok code =>
          if code = 0 ∨ code = 10 ∨ code = 11 ∨ code = 12 then "none"
          else "arrow"

/-- `get_gliffy_tid(gliffy_obj)`. -/
def getGliffyTid (gliffyObj : Dict) : Option String :=
  match dget gliffyObj "graphic" with
  | some (.obj g) =>
      if pyTruthy (.obj g) then
        match dget g "Shape" with
        | some (.obj sh) =>
            if pyTruthy (.obj sh) then
              match dget sh "tid" with
              | some tv => if pyTruthy tv then some (pyStr tv) else none
              | none => none
            else none
        | _ => none
      else none
  | _ => none

/-- The `(x, y, width, height)` record `object_info` stores per node id. -/
structure Geo where
  x : ℚ
  y : ℚ
  width : ℚ
  height : ℚ
  deriving DecidableEq, Repr

/-- Assignment into the `object_info` dict (overwrite or append). -/
def geoSet : List (String × Geo) → String → Geo → List (String × Geo)
  | [], k, g => [(k, g)]
  | (k', g') :: rest, k, g =>
      if k' = k then (k, g) :: rest else (k', g') :: geoSet rest k g

/-- Lookup in `object_info`. -/
def geoGet : List (String × Geo) → String → Option Geo
  | [], _ => none
  | (k', g') :: rest, k => if k' = k then some g' else geoGet rest k

/-- `get_constraint_point(constraint, object_info)`: a falsy constraint or a
falsy/absent `nodeId` resolves to nothing, an unindexed node id resolves to
nothing, otherwise the absolute point `(x + width*px, y + height*py)` with
`px`/`py` defaulting to 0.5.  A truthy non-dict constraint raises
`AttributeError`; an unconvertible `px`/`py` raises out of `float`. -/
def getConstraintPoint (constraint : JVal) (objectInfo : List (String × Geo)) :
    Except PyErr (Option (ℚ × ℚ)) :=
  if ¬ pyTruthy constraint then .ok none
  else
    match constraint with
    | .obj cfs =>
        match dget cfs "nodeId" with
        | none => .ok none
        | some nv =>
            if ¬ pyTruthy nv then .ok none
            else
              let nodeId := pyStr nv
              match geoGet objectInfo nodeId with
              | none => .ok none
              | some info => do
                  let px ← pyFloat (dgetD cfs "px" (.num (1/2)))
                  let py ← pyFloat (dgetD cfs "py" (.num (1/2)))
                  .ok (some (info.x + info.width * px, info.y + info.height * py))
    | _ => .error .attributeError

/-- The `object_info` construction loop of `convert_gliffy_to_excalidraw`
(lines 446-455): every flattened node with a non-null id is indexed — hidden
or not — and `float` failures on its geometry abort the conversion (the
loop is not inside any try block). -/
def buildObjectInfo : List Dict → List (String × Geo) →
    Except PyErr (List (String × Geo))
  | [], info => .ok info
  | obj :: rest, info =>
      match dgetNN obj "id" with
      | none => buildObjectInfo rest info
      | some idv =>
          match (do
            let x ← pyFloat (dgetD obj "x" (.num 0))
            let y ← pyFloat (dgetD obj "y" (.num 0))
            let w ← pyFloat (dgetD obj "width" (.num 0))
            let h ← pyFloat (dgetD obj "height" (.num 0))
            pure (Geo.mk x y w h) : Except PyErr Geo) with
          | .error e => .error e
          | .ok g => buildObjectInfo rest (geoSet info (pyStr idv) g)

/-! ## Shape builders -/

/-- One stored arrow geometry: the resolved absolute polyline and the raw
arrowhead codes (`arrow_geometries[id]`).  The codes are never read back, so
they stay as the JSON values each writer stored. -/
structure ArrowGeom where
  points : List (ℚ × ℚ)
  startArrow : JVal
  endArrow : JVal

/-- The `arrow_geometries` dict, keyed by `str(obj_id)`. -/
abbrev AG := List (String × ArrowGeom)

def agSet : AG → String → ArrowGeom → AG
  | [], k, g => [(k, g)]
  | (k', g') :: rest, k, g =>
      if k' = k then (k, g) :: rest else (k', g') :: agSet rest k g

def agGet : AG → String → Option ArrowGeom
  | [], _ => none
  | (k', g') :: rest, k => if k' = k then some g' else agGet rest k

/-- The `id_map` dict (Gliffy id string to Excalidraw element id). -/
abbrev IdMap := List (String × String)

def imSet : IdMap → String → String → IdMap
  | [], k, v => [(k, v)]
  | (k', v') :: rest, k, v =>
      if k' = k then (k, v) :: rest else (k', v') :: imSet rest k v

def imGet : IdMap → String → Option String
  | [], _ => none
  | (k', v') :: rest, k => if k' = k then some v' else imGet rest k

/-- Python `v == 0` as `_create_excalidraw_line` asks it of the raw
`startArrow`/`endArrow` values: numeric zero and `False` compare equal to 0,
nothing else does. -/
def pyEqZero : JVal → Bool
  | .num q => decide (q = 0)
  | .bool b => !b
  | _ => false

/-- The body of `_create_excalidraw_text` after `new_excalidraw_base` (the
caller draws the base, see `createExcalidrawText`).  Returns `none` for a
node whose resolved text is empty. -/
def createTextCore (gliffyObj : Dict) (objectInfo : List (String × Geo))
    (arrowGeometries : AG) (idMap : IdMap) (base : TElem) :
    Except PyErr (Option TElem) := do
  let x ← pyFloat (dgetD gliffyObj "x" (.num 0))
  let y ← pyFloat (dgetD gliffyObj "y" (.num 0))
  let w ← pyFloat (dgetD gliffyObj "width" (.num 0))
  let h ← pyFloat (dgetD gliffyObj "height" (.num 0))
  let ang ← pyFloat (dgetD gliffyObj "rotation" (.num 0))
  let base := { base with
    x := x, y := y, width := w, height := h,
    angle := ang, backgroundColor := "transparent" }
  let text ← getGliffyTextContent gliffyObj
  if text = "" then return none
  let sc ← getGliffyStrokeColor gliffyObj "#000000"
  let base := { base with text := some text, strokeColor := sc }
  -- `parent_id = gliffy_obj.get('_parentId')`; stored `null` is Python None
  let parentIdV := dgetD gliffyObj "_parentId" .null
  let isArrowLabel : Bool :=
    match parentIdV with
    | .null => false
    | v => (agGet arrowGeometries (pyStr v)).isSome
  let defaultFontSize : ℕ := if isArrowLabel then 12 else 20
  let graphic := dgetD gliffyObj "graphic" (.obj [])
  let textGraphic ← pyGetAttrD graphic "Text" (.obj [])
  let htmlV ← pyGetAttrD textGraphic "html" (.str "")
  let fs0 ← extractFontSizeOf htmlV defaultFontSize
  let fontSize : ℕ := if isArrowLabel then min fs0 12 else fs0
  let base := { base with
    fontSize := some (fontSize : ℚ), fontFamily := some 1,
    textAlign := some "center", verticalAlign := some "middle",
    baseline := some (ratTrunc ((fontSize : ℚ) * (17/20))),
    originalText := some text, lineHeight := some (5/4) }
  -- container binding (`if parent_id and str(parent_id) in id_map and not is_arrow_label`)
  let base :=
    if pyTruthy parentIdV ∧ ¬ isArrowLabel then
      match imGet idMap (pyStr parentIdV) with
      | some parentExcalidrawId =>
          let base := { base with containerId := some parentExcalidrawId }
          match geoGet objectInfo (pyStr parentIdV) with
          | some parentInfo =>
              let availableWidth := parentInfo.width - 20
              if availableWidth > 0 then
                let base := { base with width := availableWidth }
                let wrapped := wrapTextContent text availableWidth (fontSize : ℚ)
                if wrapped ≠ "" then { base with text := some wrapped } else base
              else base
          | none => base
      | none => base
    else base
  -- floating arrow label (`arrow_geometries[parent_id]`: raw dict indexing)
  if isArrowLabel then do
    let geometry ← (match parentIdV with
      | .str s =>
          match agGet arrowGeometries s with
          | some g => pure g
          | none => Except.error .keyError
      | _ => Except.error .keyError)
    let pts := geometry.points
    if pts.isEmpty then return some base
    let midIdx := pts.length / 2
    match pts.get? midIdx with
    | some midPoint =>
        let textLength : ℕ := (replaceChar text '\n' ' ').length
        let estimatedWidth : ℚ := (textLength : ℚ) * (fontSize : ℚ) * (3/5)
        let w2 := min (max estimatedWidth 50) 200
        let h2 := max ((fontSize : ℚ) * (3/2))
          ((fontSize : ℚ) * (((text.toList.count '\n') + 1 : ℕ) : ℚ) * (6/5))
        return some { base with
          width := w2, height := h2,
          x := midPoint.1 - w2 / 2, y := midPoint.2 - h2 / 2 }
    | none => return some base
  else
    return some base

/-- `_create_excalidraw_text(gliffy_obj, object_info, arrow_geometries,
id_map)`. -/
def createExcalidrawText (gliffyObj : Dict) (objectInfo : List (String × Geo))
    (arrowGeometries : AG) (idMap : IdMap) (env : Env) :
    Except PyErr (Option TElem) × Env :=
  let (base, env') := newExcalidrawBase "text" env
  (createTextCore gliffyObj objectInfo arrowGeometries idMap base, env')

/-- The arrow-label re-check used by the shape builders' child-text search
(lines 1071-1084 / 1264-1277): the child's `_parentId` names an arrow if
some node of the flattened list has that id (`is not None`) and classifies
as `arrow`. -/
def isArrowParent (allObjects : List Dict) (childParentId : JVal) : Bool :=
  if pyTruthy childParentId then
    allObjects.any fun parentObj =>
      match dgetNN parentObj "id" with
      | some pid =>
          pyStr pid = pyStr childParentId ∧
            getGliffyObjectType parentObj = some "arrow"
      | none => false
  else false

/-- The child-text search shared by the rectangle and ellipse builders
(lines 1063-1131 and 1256-1324, two textually identical loops): the first
flattened node whose `_parentId` is this shape, which classifies as text, is
not an arrow label, and has non-empty content; paired with the font size
extracted from the child's html (default 20). -/
def findChildText (allObjects : List Dict) : List Dict → String →
    Except PyErr (Option (String × ℕ))
  | [], _ => .ok none
  | childObj :: rest, objIdStr => do
      let childParentId := dgetD childObj "_parentId" .null
      if pyTruthy childParentId ∧ pyStr childParentId = objIdStr then
        if getGliffyObjectType childObj = some "text" then
          if ¬ isArrowParent allObjects childParentId then do
            let childText ← getGliffyTextContent childObj
            if childText ≠ "" then do
              let childGraphic := dgetD childObj "graphic" (.obj [])
              let childTextGraphic ← pyGetAttrD childGraphic "Text" (.obj [])
              let htmlV ← pyGetAttrD childTextGraphic "html" (.str "")
              let fs ← extractFontSizeOf htmlV 20
              .ok (some (childText, fs))
            else findChildText allObjects rest objIdStr
          else findChildText allObjects rest objIdStr
        else findChildText allObjects rest objIdStr
      else findChildText allObjects rest objIdStr

/-- The direct-then-child text search of the shape builders (lines
1014-1131 / 1207-1324): the node's own text (unless the node itself
classifies as arrow) with the font size from its own html, else the first
eligible child's text and size. -/
def shapeTextSearch (gliffyObj : Dict) (allObjects : List Dict) :
    Except PyErr (Option (String × ℕ)) := do
  let direct ←
    if getGliffyObjectType gliffyObj ≠ some "arrow" then do
      let t ← getGliffyTextContent gliffyObj
      if t ≠ "" then do
        let graphic := dgetD gliffyObj "graphic" (.obj [])
        let textGraphic ← pyGetAttrD graphic "Text" (.obj [])
        let htmlV ← pyGetAttrD textGraphic "html" (.str "")
        let fs ← extractFontSizeOf htmlV 20
        pure (some (t, fs))
      else pure none
    else pure none
  match direct with
  | some p => pure (some p)
  | none =>
      match dgetNN gliffyObj "id" with
      | some idv => findChildText allObjects allObjects (pyStr idv)
      | none => pure none

/-- The embedded-text tail shared by the rectangle and ellipse builders
(lines 1134-1166 and 1327-1359, textually identical): halve the extracted
size (`int(font_size*0.5)`), clamp to [8,10], wrap to the shape's interior
width, and set the text fields.  (The source's final `isinstance(...,
str)` re-check of `fontSize` is dead — the value is numeric by then — and
its `available_height` variable is never used.) -/
def applyShapeText (base : TElem) (textContent : String) (fsRaw : ℕ) : TElem :=
  let fs0 := fsRaw / 2
  let fs1 := if fs0 < 8 then 8 else fs0
  let fontSize := if fs1 > 10 then 10 else fs1
  let availableWidth := base.width - 20
  let wrapped :=
    if availableWidth > 0 then wrapTextContent textContent availableWidth (fontSize : ℚ)
    else textContent
  { base with
    text := some wrapped, fontSize := some (fontSize : ℚ),
    fontFamily := some 1, textAlign := some "center",
    verticalAlign := some "middle",
    baseline := some (ratTrunc ((fontSize : ℚ) * (17/20))),
    originalText := some textContent, lineHeight := some (5/4) }

/-- The body of `_create_excalidraw_rectangle` after `new_excalidraw_base`.
The width/height conversion sits in its own try block (a failure zeroes
both), so degenerate or unconvertible sizes floor to 100; `rotation`,
colors, stroke width, `cornerRadius` and the text search can still raise
out of the builder.  The function never returns `None`. -/
def createRectangleCore (gliffyObj : Dict) (allObjects : List Dict)
    (objectInfo : List (String × Geo)) (idMap : IdMap) (base : TElem) :
    Except PyErr TElem := do
  let x ← pyFloat (dgetD gliffyObj "x" (.num 0))
  let y ← pyFloat (dgetD gliffyObj "y" (.num 0))
  let wv := dgetD gliffyObj "width" (.num 0)
  let hv := dgetD gliffyObj "height" (.num 0)
  let wh : ℚ × ℚ :=
    match (do
      let wf ← (if pyTruthy wv then pyFloat wv else pure 0)
      let hf ← (if pyTruthy hv then pyFloat hv else pure 0)
      pure (wf, hf) : Except PyErr (ℚ × ℚ)) with
    | .ok p => p
    | .error _ => (0, 0)
  let widthF := if wh.1 ≤ 0 then (100 : ℚ) else wh.1
  let heightF := if wh.2 ≤ 0 then (100 : ℚ) else wh.2
  let ang ← pyFloat (dgetD gliffyObj "rotation" (.num 0))
  let sc ← getGliffyStrokeColor gliffyObj
  let bg := getGliffyFillColor gliffyObj "#f9f9f9"
  let sw ← getGliffyStrokeWidth gliffyObj
  let base := { base with
    x := x, y := y, width := widthF, height := heightF,
    angle := ang, strokeColor := sc, backgroundColor := bg, strokeWidth := sw }
  let base ← (match dget gliffyObj "graphic" with
    | some (.obj g) =>
        if pyTruthy (.obj g) then
          match dget g "Shape" with
          | some (.obj sh) =>
              if pyTruthy (.obj sh) ∧ pyTruthy (dgetD sh "cornerRadius" .null) then do
                let cornerRadius ← pyFloat (dgetD sh "cornerRadius" .null)
                if cornerRadius > 0 then
                  pure { base with
                    roundness := some { rtype := 3, value := some cornerRadius } }
                else pure base
              else pure base
          | _ => pure base
        else pure base
    | _ => pure base)
  match ← shapeTextSearch gliffyObj allObjects with
  | none => pure base
  | some (textContent, fsRaw) => pure (applyShapeText base textContent fsRaw)

/-- `_create_excalidraw_rectangle(gliffy_obj, all_objects, object_info,
id_map)`. -/
def createExcalidrawRectangle (gliffyObj : Dict) (allObjects : List Dict)
    (objectInfo : List (String × Geo)) (idMap : IdMap) (env : Env) :
    Except PyErr TElem × Env :=
  let (base, env') := newExcalidrawBase "rectangle" env
  (createRectangleCore gliffyObj allObjects objectInfo idMap base, env')

/-- The body of `_create_excalidraw_ellipse` after `new_excalidraw_base`:
plain `float` geometry (so bad sizes raise here, unlike the rectangle),
near-square normalisation into a circle, the diamond override from the uid,
then the same text search and embedding as the rectangle. -/
def createEllipseCore (gliffyObj : Dict) (allObjects : List Dict)
    (objectInfo : List (String × Geo)) (idMap : IdMap) (base : TElem) :
    Except PyErr TElem := do
  let x ← pyFloat (dgetD gliffyObj "x" (.num 0))
  let y ← pyFloat (dgetD gliffyObj "y" (.num 0))
  let w ← pyFloat (dgetD gliffyObj "width" (.num 0))
  let h ← pyFloat (dgetD gliffyObj "height" (.num 0))
  let ang ← pyFloat (dgetD gliffyObj "rotation" (.num 0))
  let sc ← getGliffyStrokeColor gliffyObj
  let bg := getGliffyFillColor gliffyObj "#f9f9f9"
  let sw ← getGliffyStrokeWidth gliffyObj
  let base := { base with
    x := x, y := y, width := w, height := h, angle := ang,
    strokeColor := sc, backgroundColor := bg, strokeWidth := sw,
    roundness := some { rtype := 2 } }
  let base :=
    if base.width > 0 ∧ base.height > 0 then
      let aspect := min base.width base.height / max base.width base.height
      if aspect > 9/10 then
        let avgSize := (base.width + base.height) / 2
        { base with width := avgSize, height := avgSize }
      else base
    else base
  let uid := strLower (pyStr (dgetD gliffyObj "uid" (.str "")))
  let base :=
    if strContains uid "diamond" ∨ strContains uid "decision" then
      { base with etype := "diamond" }
    else base
  match ← shapeTextSearch gliffyObj allObjects with
  | none => pure base
  | some (textContent, fsRaw) => pure (applyShapeText base textContent fsRaw)

/-- `_create_excalidraw_ellipse(gliffy_obj, all_objects, object_info,
id_map)`. -/
def createExcalidrawEllipse (gliffyObj : Dict) (allObjects : List Dict)
    (objectInfo : List (String × Geo)) (idMap : IdMap) (env : Env) :
    Except PyErr TElem × Env :=
  let (base, env') := newExcalidrawBase "ellipse" env
  (createEllipseCore gliffyObj allObjects objectInfo idMap base, env')

/-- The body of `_create_excalidraw_line` after `new_excalidraw_base`.
Returns `none` (and the untouched geometry index) when fewer than two
points resolve; otherwise the element plus the updated `arrow_geometries`.
The `element_registry` parameter is accepted and ignored, as in the
source. -/
def createLineCore (gliffyObj : Dict) (objectInfo : List (String × Geo))
    (idMap : IdMap) (elementRegistry : List (String × TElem))
    (arrowGeometries : AG) (base : TElem) :
    Except PyErr (Option TElem × AG) := do
  let sc ← getGliffyStrokeColor gliffyObj
  let sw ← getGliffyStrokeWidth gliffyObj
  let base := { base with
    strokeColor := sc, backgroundColor := "transparent",
    fillStyle := "solid", strokeWidth := sw,
    roundness := some { rtype := 2 } }
  -- lines 1388-1396: re-fetch `graphic` and `Line` (both branches of the
  -- `graphic.get('type') == 'Line'` test run the same `... or ` fallback)
  let graphic := dget gliffyObj "graphic"
  let lineData : JVal :=
    match graphic with
    | some gv =>
        if pyTruthy gv then
          match gv with
          | .obj g =>
              let lv := dgetD g "Line" (.obj [])
              if pyTruthy lv then lv else .obj []
          | _ => .obj []
        else .obj []
    | none => .obj []
  let controlPath : JVal :=
    match lineData with
    | .obj ld => dgetD ld "controlPath" (.arr [])
    | _ => .arr []
  let points1 : List (ℚ × ℚ) ←
    if pyTruthy controlPath then do
      let objX ← pyFloat (dgetD gliffyObj "x" (.num 0))
      let objY ← pyFloat (dgetD gliffyObj "y" (.num 0))
      let items ← pyIter controlPath
      items.foldlM (fun acc p =>
        match p with
        | .arr (p0 :: p1 :: _) => do
            let a ← pyFloat p0
            let b ← pyFloat p1
            pure (acc ++ [(objX + a, objY + b)])
        | _ => pure acc) []
    else pure []
  let points : List (ℚ × ℚ) ←
    if points1.isEmpty then do
      let constraints := dgetD gliffyObj "constraints" (.obj [])
      if pyTruthy constraints then do
        let startC ← pyGetAttrD constraints "startConstraint" (.obj [])
        let endC ← pyGetAttrD constraints "endConstraint" (.obj [])
        let pts1 ←
          if pyTruthy startC then do
            let startData ← pyGetAttrD startC "StartPositionConstraint" (.obj [])
            match ← getConstraintPoint startData objectInfo with
            | some p => pure [p]
            | none => pure ([] : List (ℚ × ℚ))
          else pure []
        if pyTruthy endC then do
          let endData ← pyGetAttrD endC "EndPositionConstraint" (.obj [])
          match ← getConstraintPoint endData objectInfo with
          | some p => pure (pts1 ++ [p])
          | none => pure pts1
        else pure pts1
      else pure []
    else pure points1
  if points.length < 2 then return (none, arrowGeometries)
  -- arrow codes (lines 1429-1462)
  let sac0 : Option JVal :=
    match lineData with
    | .obj ld => dgetNN ld "startArrow"
    | _ => none
  let eac0 : Option JVal :=
    match lineData with
    | .obj ld => dgetNN ld "endArrow"
    | _ => none
  let (sac1, eac1) :=
    if sac0.isNone ∨ eac0.isNone then
      match graphic with
      | some gv =>
          if pyTruthy gv then
            match gv with
            | .obj g =>
                let lineDataDirect := dgetD g "Line" (.obj [])
                let s2 := match lineDataDirect with
                  | .obj l2 => dgetNN l2 "startArrow"
                  | _ => none
                let e2 := match lineDataDirect with
                  | .obj l2 => dgetNN l2 "endArrow"
                  | _ => none
                (if sac0.isNone then s2 else sac0,
                 if eac0.isNone then e2 else eac0)
            | _ => (sac0, eac0)
          else (sac0, eac0)
      | none => (sac0, eac0)
    else (sac0, eac0)
  let startArrowCode : ℤ :=
    match pyInt (sac1.getD (.num 0)) with
    | .ok i => i
    | .error _ => 0
  let endArrowCode : ℤ :=
    match pyInt (eac1.getD (.num 0)) with
    | .ok i => i
    | .error _ => 0
  match points with
  | [] => return (none, arrowGeometries)
  | firstPoint :: _ =>
      let base := { base with x := firstPoint.1, y := firstPoint.2 }
      let relativePoints := points.map fun p =>
        (p.1 - firstPoint.1, p.2 - firstPoint.2)
      let base := { base with
        points := relativePoints,
        lastCommittedPoint := relativePoints.getLast? }
      let lastPoint := (points.getLast?).getD firstPoint
      let base := { base with
        width := lastPoint.1 - firstPoint.1,
        height := lastPoint.2 - firstPoint.2 }
      let startArrowResult :=
        getExcalidrawArrowhead (some (.num (startArrowCode : ℚ))) "none"
      let endArrowResult :=
        getExcalidrawArrowhead (some (.num (endArrowCode : ℚ))) "none"
      let base := { base with
        startArrowhead := if startArrowResult = "none" then none
          else some startArrowResult,
        endArrowhead := if endArrowResult = "none" then none
          else some endArrowResult }
      let objIdV := dgetD gliffyObj "id" .null
      if pyTruthy objIdV then do
        let objIdStr := pyStr objIdV
        let constraints2 := dgetD gliffyObj "constraints" (.obj [])
        let startC2 ← pyGetAttrD constraints2 "startConstraint" (.obj [])
        let endC2 ← pyGetAttrD constraints2 "endConstraint" (.obj [])
        let startNodeId : Option JVal ←
          if pyTruthy startC2 then do
            let d ← pyGetAttrD startC2 "StartPositionConstraint" (.obj [])
            match d with
            | .obj dd => pure (dget dd "nodeId")
            | _ => Except.error .attributeError
          else pure none
        let endNodeId : Option JVal ←
          if pyTruthy endC2 then do
            let d ← pyGetAttrD endC2 "EndPositionConstraint" (.obj [])
            match d with
            | .obj dd => pure (dget dd "nodeId")
            | _ => Except.error .attributeError
          else pure none
        let base :=
          match startNodeId with
          | some nv =>
              if pyTruthy nv then
                match imGet idMap (pyStr nv) with
                | some eid =>
                    { base with startBinding := some ⟨eid, 1/2, 0⟩ }
                | none => { base with startBinding := none }
              else { base with startBinding := none }
          | none => { base with startBinding := none }
        let base :=
          match endNodeId with
          | some nv =>
              if pyTruthy nv then
                match imGet idMap (pyStr nv) with
                | some eid =>
                    { base with endBinding := some ⟨eid, 1/2, 0⟩ }
                | none => { base with endBinding := none }
              else { base with endBinding := none }
          | none => { base with endBinding := none }
        let absolutePoints := relativePoints.map fun rp =>
          (base.x + rp.1, base.y + rp.2)
        let ag2 := agSet arrowGeometries objIdStr
          { points := absolutePoints,
            startArrow := .num (startArrowCode : ℚ),
            endArrow := .num (endArrowCode : ℚ) }
        return (some base, ag2)
      else
        return (some base, arrowGeometries)

/-- `_create_excalidraw_line(...)`: the element type is `line` when both raw
arrowhead codes compare equal to 0, else `arrow`, decided before the base is
drawn. -/
def createExcalidrawLine (gliffyObj : Dict) (objectInfo : List (String × Geo))
    (idMap : IdMap) (elementRegistry : List (String × TElem))
    (arrowGeometries : AG) (env : Env) :
    Except PyErr (Option TElem × AG) × Env :=
  let graphic0 := dgetD gliffyObj "graphic" (.obj [])
  let lineData0 : JVal :=
    match graphic0 with
    | .obj g => dgetD g "Line" (.obj [])
    | _ => .obj []
  let startArrowV : JVal :=
    match lineData0 with
    | .obj ld => dgetD ld "startArrow" (.num 0)
    | _ => .num 0
  let endArrowV : JVal :=
    match lineData0 with
    | .obj ld => dgetD ld "endArrow" (.num 0)
    | _ => .num 0
  let elementType :=
    if pyEqZero startArrowV ∧ pyEqZero endArrowV then "line" else "arrow"
  let (base, env') := newExcalidrawBase elementType env
  (createLineCore gliffyObj objectInfo idMap elementRegistry arrowGeometries
    base, env')

/-! ## The optional image-substitution collaborator -/

/-- The TID lookup collaborator (`tid_image_mapper.TIDImageMapper`) plus the
file system its path branch reads: a disk-backed external component, modelled
by the interface the converter consumes (`should_use_image`,
`get_image_data_for_tid`, `get_image_for_tid`) and a byte-level read
standing for `Path(...).exists()` followed by `open(...).read()` (absent
file = `none`).  Passing no mapper models the source's `ImportError`
fallback. -/
structure TidMapper where
  shouldUseImage : String → Bool
  getImageDataForTid : String → Option (List ℕ)
  getImageForTid : String → Option String
  readFile : String → Option (List ℕ)

def b64Table : List Char :=
  "ABCDEFGHIJKLMNOPQRSTUVWXYZabcdefghijklmnopqrstuvwxyz0123456789+/".toList

def b64Char (n : ℕ) : Char := b64Table.getD n 'A'

/-- `base64.b64encode` on a byte list. -/
def b64Encode : List ℕ → String
  | [] => ""
  | [a] =>
      String.mk [b64Char (a / 4), b64Char (a % 4 * 16), '=', '=']
  | [a, b] =>
      String.mk [b64Char (a / 4), b64Char (a % 4 * 16 + b / 16),
        b64Char (b % 16 * 4), '=']
  | a :: b :: c :: rest =>
      String.mk [b64Char (a / 4), b64Char (a % 4 * 16 + b / 16),
        b64Char (b % 16 * 4 + c / 64), b64Char (c % 64)] ++ b64Encode rest

/-- The byte-signature MIME sniffing of
`_create_excalidraw_image_from_data`. -/
def sniffMime (imageData : List ℕ) : String :=
  if [137, 80, 78, 71].isPrefixOf imageData then "image/png"
  else if [255, 216, 255].isPrefixOf imageData then "image/jpeg"
  else if [60, 115, 118, 103].isPrefixOf imageData ∨
      [60, 63, 120, 109, 108].isPrefixOf imageData then "image/svg+xml"
  else "image/png"

/-- `_create_excalidraw_image_from_data(gliffy_obj, image_data, id_map)`:
its own try/except returns `None` on any internal failure; the `randint`
for the file id is drawn only after the geometry converts, matching the
source's evaluation order. -/
def createExcalidrawImageFromData (gliffyObj : Dict) (imageData : List ℕ)
    (idMap : IdMap) (env : Env) : Option TElem × Env :=
  let mimeType := sniffMime imageData
  let dataUrl := "data:" ++ mimeType ++ ";base64," ++ b64Encode imageData
  let (base, env1) := newExcalidrawBase "image" env
  match (do
    let x ← pyFloat (dgetD gliffyObj "x" (.num 0))
    let y ← pyFloat (dgetD gliffyObj "y" (.num 0))
    let w ← pyFloat (dgetD gliffyObj "width" (.num 100))
    let h ← pyFloat (dgetD gliffyObj "height" (.num 100))
    let ang ← pyFloat (dgetD gliffyObj "rotation" (.num 0))
    pure (x, y, w, h, ang) : Except PyErr (ℚ × ℚ × ℚ × ℚ × ℚ)) with
  | .error _ => (none, env1)
  | .ok (x, y, w, h, ang) =>
      let (fn, env2) := randint6 env1
      (some { base with
        x := x, y := y, width := w, height := h, angle := ang,
        fileId := some ("image_" ++ toString fn), scale := some (1, 1),
        imageData := some dataUrl }, env2)

/-- `_create_excalidraw_image(gliffy_obj, image_path, id_map, image_data)`:
truthy in-memory bytes win; otherwise the path is read through the
collaborator's file system, a missing file giving `None`. -/
def createExcalidrawImage (gliffyObj : Dict) (imagePath : String)
    (idMap : IdMap) (imageData : Option (List ℕ))
    (readFile : String → Option (List ℕ)) (env : Env) : Option TElem × Env :=
  match imageData with
  | some bytes =>
      if ¬ bytes.isEmpty then
        createExcalidrawImageFromData gliffyObj bytes idMap env
      else
        fromPath
  | none => fromPath
where
  fromPath : Option TElem × Env :=
    match readFile imagePath with
    | none => (none, env)
    | some bytes => createExcalidrawImageFromData gliffyObj bytes idMap env

/-! ## The conversion passes -/

/-- The element registry (`element_registry`): written by every pass, never
read by any (the line builder receives it and ignores it). -/
abbrev Registry := List (String × TElem)

def regSet : Registry → String → TElem → Registry
  | [], k, v => [(k, v)]
  | (k', v') :: rest, k, v =>
      if k' = k then (k, v) :: rest else (k', v') :: regSet rest k v

def fileSet : List (String × FileEntry) → String → FileEntry →
    List (String × FileEntry)
  | [], k, v => [(k, v)]
  | (k', v') :: rest, k, v =>
      if k' = k then (k, v) :: rest else (k', v') :: fileSet rest k v

/-- The mutable locals of `convert_gliffy_to_excalidraw` that the element
passes grow: the elements list, `id_map`, `element_registry` and the image
`files` map. -/
structure BuildState where
  elements : List TElem
  idMap : IdMap
  elementRegistry : Registry
  imageFiles : List (String × FileEntry)

def initialBuildState : BuildState :=
  { elements := [], idMap := [], elementRegistry := [], imageFiles := [] }

/-- `elements.append(element)` followed by the
`if obj_id is not None: id_map[...] / element_registry[...]` registration. -/
def registerElement (st : BuildState) (objId : Option JVal) (el : TElem) :
    BuildState :=
  let st := { st with elements := st.elements ++ [el] }
  match objId with
  | some idv =>
      { st with idMap := imSet st.idMap (pyStr idv) el.id,
                elementRegistry := regSet st.elementRegistry (pyStr idv) el }
  | none => st

/-- `'mimeType': element['_imageData'].split(';')[0].split(':')[1]`. -/
def mimeOfDataUrl (dataUrl : String) : String :=
  (splitOnChar ':' ((splitOnChar ';' dataUrl).headD "")).getD 1 ""

/-- The image-substitution decision of the first pass (lines 473-489):
`(use_image, image_path, image_data)`. -/
def imageDecision (mapper : Option TidMapper) (tid : Option String) :
    Bool × Option String × Option (List ℕ) :=
  match mapper, tid with
  | some m, some t =>
      if m.shouldUseImage t then
        match m.getImageDataForTid t with
        | some bytes =>
            if ¬ bytes.isEmpty then (true, none, some bytes)
            else
              match m.getImageForTid t with
              | some p => (p ≠ "", some p, some bytes)
              | none => (false, none, some bytes)
        | none =>
            match m.getImageForTid t with
            | some p => (p ≠ "", some p, none)
            | none => (false, none, none)
      else (false, none, none)
  | _, _ => (false, none, none)

/-- The `except Exception` handler of the first pass (lines 533-601): retry
`_create_excalidraw_rectangle`; a second failure is swallowed and the node
dropped.  The handler's further `else` branch (the minimal rectangle with
text, lines 545-598) only runs when the retried builder returns a falsy
element, which `_create_excalidraw_rectangle` never does — it
unconditionally returns its non-empty base dict — so that branch is dead
code and has no counterpart here. -/
def pass1ExceptHandler (allObjects : List Dict)
    (objectInfo : List (String × Geo)) (st : BuildState) (obj : Dict)
    (objId : Option JVal) (env : Env) : BuildState × Env :=
  match createExcalidrawRectangle obj allObjects objectInfo st.idMap env with
  | (.ok el, env') => (registerElement st objId el, env')
  | (.error _, env') => (st, env')

/-- One node of the first (shape) pass, lines 459-601: skip falsy dicts,
hidden nodes, texts and arrows; try the image path when the TID collaborator
asks for it, else the rectangle/ellipse builder with rectangle as the
unknown-type fallback; builder exceptions go to `pass1ExceptHandler`. -/
def pass1Step (allObjects : List Dict) (objectInfo : List (String × Geo))
    (mapper : Option TidMapper) (st : BuildState) (obj : Dict) (env : Env) :
    BuildState × Env :=
  if obj.isEmpty then (st, env)
  else if pyTruthy (dgetD obj "hidden" (.bool false)) then (st, env)
  else
    let objType := detectedOr obj
    if objType = some "text" ∨ objType = some "arrow" then (st, env)
    else
      let objId := dgetNN obj "id"
      let tid := getGliffyTid obj
      let (useImage, imagePath, imageData) := imageDecision mapper tid
      if useImage then
        let readF := match mapper with
          | some m => m.readFile
          | none => fun _ => none
        let (elOpt, env') := createExcalidrawImage obj (imagePath.getD "")
          st.idMap imageData readF env
        match elOpt with
        | some el =>
            let st := registerElement st objId el
            let st :=
              match el.fileId, el.imageData with
              | some fid, some du =>
                  { st with imageFiles :=
                      fileSet st.imageFiles fid ⟨mimeOfDataUrl du, du⟩ }
              | _, _ => st
            (st, env')
        | none => (st, env')
      else if objType = some "rectangle" then
        match createExcalidrawRectangle obj allObjects objectInfo st.idMap env with
        | (.ok el, env') => (registerElement st objId el, env')
        | (.error _, env') =>
            pass1ExceptHandler allObjects objectInfo st obj objId env'
      else if objType = some "ellipse" then
        match createExcalidrawEllipse obj allObjects objectInfo st.idMap env with
        | (.ok el, env') => (registerElement st objId el, env')
        | (.error _, env') =>
            pass1ExceptHandler allObjects objectInfo st obj objId env'
      else
        match createExcalidrawRectangle obj allObjects objectInfo st.idMap env with
        | (.ok el, env') => (registerElement st objId el, env')
        | (.error _, env') =>
            pass1ExceptHandler allObjects objectInfo st obj objId env'

def pass1 (allObjects : List Dict) (objectInfo : List (String × Geo))
    (mapper : Option TidMapper) : List Dict → BuildState → Env →
    BuildState × Env
  | [], st, env => (st, env)
  | obj :: rest, st, env =>
      let (st', env') := pass1Step allObjects objectInfo mapper st obj env
      pass1 allObjects objectInfo mapper rest st' env'

/-- The arrow-geometry pre-pass (lines 603-665): for every visible arrow
node with an id, resolve the absolute polyline (controlPath first, else the
two endpoint constraints) and store geometries with at least two points.
This pass runs outside any try block, so resolution failures abort the
whole conversion. -/
def geomPassStep (objectInfo : List (String × Geo)) (ag : AG) (obj : Dict) :
    Except PyErr AG := do
  if obj.isEmpty then return ag
  if pyTruthy (dgetD obj "hidden" (.bool false)) then return ag
  if detectedOr obj ≠ some "arrow" then return ag
  match dgetNN obj "id" with
  | none => return ag
  | some idv =>
      let objIdStr := pyStr idv
      let graphic := dget obj "graphic"
      let lineData : JVal :=
        match graphic with
        | some gv =>
            if pyTruthy gv then
              match gv with
              | .obj g =>
                  let lv := dgetD g "Line" (.obj [])
                  if pyTruthy lv then lv else .obj []
              | _ => .obj []
            else .obj []
        | none => .obj []
      let controlPath : JVal :=
        match lineData with
        | .obj ld => dgetD ld "controlPath" (.arr [])
        | _ => .arr []
      let points1 : List (ℚ × ℚ) ←
        if pyTruthy controlPath then do
          let objX ← pyFloat (dgetD obj "x" (.num 0))
          let objY ← pyFloat (dgetD obj "y" (.num 0))
          let items ← pyIter controlPath
          items.foldlM (fun acc p =>
            match p with
            | .arr (p0 :: p1 :: _) => do
                let a ← pyFloat p0
                let b ← pyFloat p1
                pure (acc ++ [(objX + a, objY + b)])
            | _ => pure acc) []
        else pure []
      let points : List (ℚ × ℚ) ←
        if points1.isEmpty then do
          let constraints := dgetD obj "constraints" (.obj [])
          if pyTruthy constraints then do
            let startC ← pyGetAttrD constraints "startConstraint" (.obj [])
            let endC ← pyGetAttrD constraints "endConstraint" (.obj [])
            let pts1 ←
              if pyTruthy startC then do
                let startData ← pyGetAttrD startC "StartPositionConstraint" (.obj [])
                match ← getConstraintPoint startData objectInfo with
                | some p => pure [p]
                | none => pure ([] : List (ℚ × ℚ))
              else pure []
            if pyTruthy endC then do
              let endData ← pyGetAttrD endC "EndPositionConstraint" (.obj [])
              match ← getConstraintPoint endData objectInfo with
              | some p => pure (pts1 ++ [p])
              | none => pure pts1
            else pure pts1
          else pure []
        else pure points1
      if points.length ≥ 2 then
        let sav : JVal :=
          match lineData with
          | .obj ld => dgetD ld "startArrow" (.num 0)
          | _ => .num 0
        let eav : JVal :=
          match lineData with
          | .obj ld => dgetD ld "endArrow" (.num 0)
          | _ => .num 0
        return agSet ag objIdStr
          { points := points, startArrow := sav, endArrow := eav }
      else
        return ag

def geomPass (objectInfo : List (String × Geo)) : List Dict → AG →
    Except PyErr AG
  | [], ag => .ok ag
  | obj :: rest, ag =>
      match geomPassStep objectInfo ag obj with
      | .error e => .error e
      | .ok ag' => geomPass objectInfo rest ag'

/-- One node of the text pass (lines 667-690): visible text nodes are built;
a builder exception skips just that node. -/
def textPassStep (objectInfo : List (String × Geo)) (ag : AG)
    (st : BuildState) (obj : Dict) (env : Env) : BuildState × Env :=
  if obj.isEmpty then (st, env)
  else if pyTruthy (dgetD obj "hidden" (.bool false)) then (st, env)
  else if detectedOr obj ≠ some "text" then (st, env)
  else
    let objId := dgetNN obj "id"
    match createExcalidrawText obj objectInfo ag st.idMap env with
    | (.ok (some el), env') => (registerElement st objId el, env')
    | (.ok none, env') => (st, env')
    | (.error _, env') => (st, env')

def textPass (objectInfo : List (String × Geo)) (ag : AG) :
    List Dict → BuildState → Env → BuildState × Env
  | [], st, env => (st, env)
  | obj :: rest, st, env =>
      let (st', env') := textPassStep objectInfo ag st obj env
      textPass objectInfo ag rest st' env'

/-- Add `(id: arrow, type: 'arrow')` to the `boundElements` of the first
element whose id is the binding's `elementId` (lines 716-740). -/
def appendBoundTo : List TElem → String → String → List TElem
  | [], _, _ => []
  | el :: rest, targetId, arrowId =>
      if el.id = targetId then
        let newBound := (el.boundElements.getD []) ++ [⟨arrowId, "arrow"⟩]
        { el with boundElements := some newBound } :: rest
      else el :: appendBoundTo rest targetId arrowId

def wireBinding (elements : List TElem) (arrowId : String)
    (binding : Option Binding) : List TElem :=
  match binding with
  | none => elements
  | some b => appendBoundTo elements b.elementId arrowId

/-- One node of the arrow pass (lines 692-743): visible arrow nodes become
line/arrow elements, the connected shapes get back-references; a builder
exception skips just that node. -/
def arrowPassStep (objectInfo : List (String × Geo)) (stag : BuildState × AG)
    (obj : Dict) (env : Env) : (BuildState × AG) × Env :=
  let (st, ag) := stag
  if obj.isEmpty then ((st, ag), env)
  else if pyTruthy (dgetD obj "hidden" (.bool false)) then ((st, ag), env)
  else if detectedOr obj ≠ some "arrow" then ((st, ag), env)
  else
    match createExcalidrawLine obj objectInfo st.idMap st.elementRegistry ag env with
    | (.ok (some el, ag'), env') =>
        let st := registerElement st (dgetNN obj "id") el
        let st := { st with elements := wireBinding st.elements el.id el.startBinding }
        let st := { st with elements := wireBinding st.elements el.id el.endBinding }
        ((st, ag'), env')
    | (.ok (none, ag'), env') => ((st, ag'), env')
    | (.error _, env') => ((st, ag), env')

def arrowPass (objectInfo : List (String × Geo)) :
    List Dict → BuildState × AG → Env → (BuildState × AG) × Env
  | [], stag, env => (stag, env)
  | obj :: rest, stag, env =>
      let (stag', env') := arrowPassStep objectInfo stag obj env
      arrowPass objectInfo rest stag' env'

/-! ## Z-order, viewport, document assembly -/

/-- `get_element_order(element)` (lines 749-758): scan the flattened nodes
in discovery order; the first whose id both sits in `id_map` and maps to
this element's id contributes its `_order`; otherwise 0.  (`_order` is
always the integer the flattener stored; the defensive 0 for anything else
is unreachable.) -/
def elementOrder (objects : List Dict) (idMap : IdMap) (element : TElem) : ℚ :=
  match objects with
  | [] => 0
  | obj :: rest =>
      match dgetNN obj "id" with
      | some idv =>
          match imGet idMap (pyStr idv) with
          | some eid =>
              if eid = element.id then
                match dget obj "_order" with
                | some (.num q) => q
                | some _ => 0
                | none => 0
              else elementOrder rest idMap element
          | none => elementOrder rest idMap element
      | none => elementOrder rest idMap element

/-- Stable insertion: the new element goes after every element of equal or
smaller key, preserving insertion order on ties exactly as Python's stable
`list.sort` does. -/
def insertByOrder (key : TElem → ℚ) (x : TElem) : List TElem → List TElem
  | [] => [x]
  | y :: ys => if key y ≤ key x then y :: insertByOrder key x ys else x :: y :: ys

/-- `elements.sort(key=get_element_order)`: a stable ascending sort. -/
def sortByOrder (key : TElem → ℚ) (l : List TElem) : List TElem :=
  l.foldl (fun acc x => insertByOrder key x acc) []

/-- The bounding-box sample points of the viewport computation (lines
775-790): arrows contribute their absolute polyline points, everything else
its two box corners. -/
def viewportXs (elements : List TElem) : List ℚ × List ℚ :=
  elements.foldl
    (fun (acc : List ℚ × List ℚ) elem =>
      if elem.etype = "arrow" then
        if ¬ elem.points.isEmpty then
          (acc.1 ++ elem.points.map (fun p => elem.x + p.1),
           acc.2 ++ elem.points.map (fun p => elem.y + p.2))
        else acc
      else
        (acc.1 ++ [elem.x, elem.x + elem.width],
         acc.2 ++ [elem.y, elem.y + elem.height]))
    ([], [])

/-- The viewport block (lines 769-817): center the union bounding box in a
1200x800 viewport and zoom `min(0.9*viewport/diagram, 1)` floored at 0.2,
with a zero-size diagram contributing ratio 1.  (The source wraps this in a
try/except; every operation here is total, so the except arm has no
counterpart.)  With no sample points `appState` is left untouched. -/
def applyViewport (doc : ExDoc) : ExDoc :=
  let (allX, allY) := viewportXs doc.elements
  match allX, allY with
  | x0 :: xs, y0 :: ys =>
      let minX := xs.foldl min x0
      let minY := ys.foldl min y0
      let maxX := xs.foldl max x0
      let maxY := ys.foldl max y0
      let centerX := (minX + maxX) / 2
      let centerY := (minY + maxY) / 2
      let viewportWidth : ℚ := 1200
      let viewportHeight : ℚ := 800
      let diagramWidth := maxX - minX
      let diagramHeight := maxY - minY
      let zoomX := if diagramWidth > 0 then viewportWidth * (9/10) / diagramWidth else 1
      let zoomY := if diagramHeight > 0 then viewportHeight * (9/10) / diagramHeight else 1
      let zoom := max (min (min zoomX zoomY) 1) (1/5)
      { doc with appState := { doc.appState with
          scrollX := some (centerX - viewportWidth / 2),
          scrollY := some (centerY - viewportHeight / 2),
          zoom := some zoom } }
  | _, _ => doc

/-! ## The public conversion function -/

/-- The object-gathering phase of `convert_gliffy_to_excalidraw` (lines
433-440): a single-scene document through `stage.objects`, else every
page's `scene.objects`; `.get` on a truthy non-dict raises
`AttributeError`. -/
def gatherObjects (gliffyData : JVal) : Except PyErr (List Dict) := do
  let stageV ← pyGetAttr gliffyData "stage"
  let stageCase ←
    (match stageV with
    | some sv =>
        if pyTruthy sv then do
          let objsV ← pyGetAttr sv "objects"
          match objsV with
          | some ov =>
              if pyTruthy ov then do
                let ex ← expandGliffyObjects ov 0 0 none
                pure (some ex)
              else pure none
          | none => pure none
        else pure none
    | none => pure none)
  match stageCase with
  | some objects => pure objects
  | none =>
      match ← pyGetAttr gliffyData "pages" with
      | some pv =>
          if pyTruthy pv then do
            let pages ← pyIter pv
            pages.foldlM (fun acc page =>
              if ¬ pyTruthy page then pure acc
              else do
                match ← pyGetAttr page "scene" with
                | some sceneV =>
                    if pyTruthy sceneV then do
                      match ← pyGetAttr sceneV "objects" with
                      | some ov =>
                          if pyTruthy ov then do
                            let ex ← expandGliffyObjects ov 0 0 none
                            pure (acc ++ ex)
                          else pure acc
                      | none => pure acc
                    else pure acc
                | none => pure acc) []
          else pure []
      | none => pure []

/-- `convert_gliffy_to_excalidraw(gliffy_data, tid_image_mapper)`:
the public conversion function.  A falsy input or one yielding no objects
returns the empty document; otherwise `object_info` is built, the four
passes run (shapes, arrow geometries, texts, arrows), the elements are
stably sorted by source z-order, image files attached, and the viewport
derived.  The default construction of a `TIDImageMapper` when the caller
passes none is a disk-backed external collaborator; it is represented by
the same `Option TidMapper` parameter (`none` also covering the source's
`ImportError` arm). -/
def convertGliffyToExcalidraw (gliffyData : JVal) (tidMapper : Option TidMapper)
    (env : Env) : Except PyErr ExDoc × Env :=
  if ¬ pyTruthy gliffyData then (.ok createEmptyExcalidraw, env)
  else
    match gatherObjects gliffyData with
    | .error e => (.error e, env)
    | .ok objects =>
        if objects.isEmpty then (.ok createEmptyExcalidraw, env)
        else
          match buildObjectInfo objects [] with
          | .error e => (.error e, env)
          | .ok objectInfo =>
              let (st1, env1) := pass1 objects objectInfo tidMapper objects
                initialBuildState env
              match geomPass objectInfo objects [] with
              | .error e => (.error e, env1)
              | .ok ag1 =>
                  let (st2, env2) := textPass objectInfo ag1 objects st1 env1
                  let ((st3, _ag2), env3) := arrowPass objectInfo objects
                    (st2, ag1) env2
                  let sorted := sortByOrder (elementOrder objects st3.idMap)
                    st3.elements
                  let doc := { createEmptyExcalidraw with elements := sorted }
                  let doc :=
                    if ¬ st3.imageFiles.isEmpty then
                      { doc with files := st3.imageFiles }
                    else doc
                  let doc :=
                    if doc.elements.isEmpty then doc else applyViewport doc
                  (.ok doc, env3)

deriving instance DecidableEq for Except

/-! ## Concrete inputs and environments used by the theorems -/

/-- An environment whose random stream counts up: every draw is distinct,
so element ids never collide. -/
def envCounter : Env := { stream := fun n => n, idx := 0, now := 1700000000000 }

/-- The same clock with a shifted random stream: a second call site. -/
def envShifted : Env := { stream := fun n => n + 1, idx := 0, now := 1700000000000 }

/-- An environment whose random stream is constant: every `randint` draw
collides (each single draw has probability 1/900000, so a real run can
produce it). -/
def envConst : Env := { stream := fun _ => 0, idx := 0, now := 1700000000000 }

/-- One plain rectangle node. -/
def oneRectInput : JVal := JVal.obj [
  ("stage", .obj [("objects", .arr [
    .obj [("id", .num 1), ("x", .num 0), ("width", .num 10),
          ("height", .num 10), ("uid", .str "a.rectangle")]])])]

/-- A well-formed rectangle next to a node whose `x` is not numeric. -/
def badXInput : JVal := JVal.obj [
  ("stage", .obj [("objects", .arr [
    .obj [("id", .num 1), ("x", .num 0), ("width", .num 10),
          ("height", .num 10), ("uid", .str "a.rectangle")],
    .obj [("id", .num 2), ("x", .str "abc"), ("width", .num 10),
          ("height", .num 10), ("uid", .str "a.rectangle")]])])]

/-- Two well-formed rectangles around a node whose `rotation` is not
numeric (a per-node builder failure). -/
def badRotationInput : JVal := JVal.obj [
  ("stage", .obj [("objects", .arr [
    .obj [("id", .num 1), ("x", .num 0), ("y", .num 0), ("width", .num 10),
          ("height", .num 10), ("uid", .str "a.rectangle")],
    .obj [("id", .num 2), ("x", .num 20), ("y", .num 0), ("width", .num 10),
          ("height", .num 10), ("rotation", .str "abc"),
          ("uid", .str "a.rectangle")],
    .obj [("id", .num 3), ("x", .num 40), ("y", .num 0), ("width", .num 10),
          ("height", .num 10), ("uid", .str "a.rectangle")]])])]

/-- The arrow-between-two-shapes scenario: rectangles at (0,0,100,100) and
(300,0,100,100), joined by a line whose constraints reference them with
(px=1, py=0.5) and (px=0, py=0.5); the line carries one arrowhead code so it
is emitted as an `arrow` element. -/
def arrowSceneInput : JVal := JVal.obj [
  ("stage", .obj [("objects", .arr [
    .obj [("id", .num 1), ("x", .num 0), ("y", .num 0),
          ("width", .num 100), ("height", .num 100),
          ("uid", .str "basic.rectangle")],
    .obj [("id", .num 2), ("x", .num 300), ("y", .num 0),
          ("width", .num 100), ("height", .num 100),
          ("uid", .str "basic.rectangle")],
    .obj [("id", .num 3), ("x", .num 0), ("y", .num 0),
          ("uid", .str "basic.line"),
          ("graphic", .obj [("type", .str "Line"),
            ("Line", .obj [("startArrow", .num 0), ("endArrow", .num 1)])]),
          ("constraints", .obj [
            ("startConstraint", .obj [("StartPositionConstraint", .obj [
               ("nodeId", .num 1), ("px", .num 1), ("py", .num (1/2))])]),
            ("endConstraint", .obj [("EndPositionConstraint", .obj [
               ("nodeId", .num 2), ("px", .num 0), ("py", .num (1/2))])])])]
  ])])]

/-- Three rectangles with order values [5, 1, 5] in discovery order A
(x=0), B (x=20), C (x=40). -/
def zOrderInput : JVal := JVal.obj [
  ("stage", .obj [("objects", .arr [
    .obj [("id", .num 1), ("x", .num 0), ("y", .num 0), ("width", .num 10),
          ("height", .num 10), ("order", .num 5), ("uid", .str "a.rectangle")],
    .obj [("id", .num 2), ("x", .num 20), ("y", .num 0), ("width", .num 10),
          ("height", .num 10), ("order", .num 1), ("uid", .str "a.rectangle")],
    .obj [("id", .num 3), ("x", .num 40), ("y", .num 0), ("width", .num 10),
          ("height", .num 10), ("order", .num 5), ("uid", .str "a.rectangle")]])])]

/-- One rectangle (0,0,200,100) containing a child text node whose html is
a span with font-size 24px around "Hello". -/
def labelSceneInput : JVal := JVal.obj [
  ("stage", .obj [("objects", .arr [
    .obj [("id", .num 1), ("x", .num 0), ("y", .num 0),
          ("width", .num 200), ("height", .num 100),
          ("uid", .str "com.gliffy.shape.basic.basic_v1.default.rectangle"),
          ("children", .arr [
            .obj [("id", .num 2), ("x", .num 10), ("y", .num 10),
                  ("width", .num 100), ("height", .num 20),
                  ("graphic", .obj [("type", .str "Text"),
                    ("Text", .obj [("html",
                      .str "<span style=\"font-size:24px\">Hello</span>")])])]
          ])]])])]

/-- A hidden rectangle at (0,0,100,100), a visible one at (300,0,100,100)
and a visible line whose constraints reference both. -/
def hiddenSceneInput : JVal := JVal.obj [
  ("stage", .obj [("objects", .arr [
    .obj [("id", .num 1), ("x", .num 0), ("y", .num 0),
          ("width", .num 100), ("height", .num 100), ("hidden", .bool true),
          ("uid", .str "a.rectangle")],
    .obj [("id", .num 2), ("x", .num 300), ("y", .num 0),
          ("width", .num 100), ("height", .num 100),
          ("uid", .str "a.rectangle")],
    .obj [("id", .num 3), ("x", .num 0), ("y", .num 0),
          ("uid", .str "a.line"),
          ("graphic", .obj [("type", .str "Line"),
            ("Line", .obj [("startArrow", .num 0), ("endArrow", .num 1)])]),
          ("constraints", .obj [
            ("startConstraint", .obj [("StartPositionConstraint", .obj [
               ("nodeId", .num 1), ("px", .num 1), ("py", .num (1/2))])]),
            ("endConstraint", .obj [("EndPositionConstraint", .obj [
               ("nodeId", .num 2), ("px", .num 0), ("py", .num (1/2))])])])]
  ])])]

/-- Two rectangles joined by a line that carries a child text node: the
child's `_parentId` resolves to the arrow. -/
def arrowLabelInput : JVal := JVal.obj [
  ("stage", .obj [("objects", .arr [
    .obj [("id", .num 1), ("x", .num 0), ("y", .num 0),
          ("width", .num 100), ("height", .num 100),
          ("uid", .str "a.rectangle")],
    .obj [("id", .num 2), ("x", .num 300), ("y", .num 0),
          ("width", .num 100), ("height", .num 100),
          ("uid", .str "a.rectangle")],
    .obj [("id", .num 3), ("x", .num 0), ("y", .num 0),
          ("uid", .str "a.line"),
          ("graphic", .obj [("type", .str "Line"),
            ("Line", .obj [("startArrow", .num 0), ("endArrow", .num 1)])]),
          ("constraints", .obj [
            ("startConstraint", .obj [("StartPositionConstraint", .obj [
               ("nodeId", .num 1), ("px", .num 1), ("py", .num (1/2))])]),
            ("endConstraint", .obj [("EndPositionConstraint", .obj [
               ("nodeId", .num 2), ("px", .num 0), ("py", .num (1/2))])])]),
          ("children", .arr [
            .obj [("id", .num 4), ("x", .num 0), ("y", .num 0),
                  ("width", .num 60), ("height", .num 20),
                  ("graphic", .obj [("type", .str "Text"),
                    ("Text", .obj [("html", .str "lbl")])])]])]
  ])])]

/-- A well-formed document whose single scene holds no objects. -/
def noObjectsInput : JVal := JVal.obj [
  ("stage", .obj [("objects", .arr [])])]

attribute [local semireducible] Rat.add Rat.mul Rat.sub Rat.inv

set_option synthInstance.maxSize 8192

/-! ## Claim C1: determinism of the public conversion function -/

/-- C1, counterexample.  Two calls of `convert` on the same one-rectangle
document, in two states of the ambient randomness, return different target
documents: already the element id differs (`rectangle_100000` versus
`rectangle_100001`), because `new_excalidraw_base` draws ids, seeds and
version nonces from `random.randint` and `updated` from the clock. -/
theorem c1_counterexample :
    (convertGliffyToExcalidraw oneRectInput none envCounter).1 ≠
      (convertGliffyToExcalidraw oneRectInput none envShifted).1 ∧
    (convertGliffyToExcalidraw oneRectInput none envCounter).1.map
      (fun d => d.elements.map TElem.id) = .ok ["rectangle_100000"] ∧
    (convertGliffyToExcalidraw oneRectInput none envShifted).1.map
      (fun d => d.elements.map TElem.id) = .ok ["rectangle_100001"] := by
  refine ⟨by decide, by decide, by decide⟩

/-- C1, amended: `convert` is a function of the input document, the image
resolver and the ambient random/clock environment; two calls reading the
same environment coincide definitionally, and on any input that yields no
objects (a falsy value, or one whose gathered object list is empty) the
result — the empty document — does not depend on the environment at all. -/
theorem c1_env_independent_when_no_objects (d : JVal) (m : Option TidMapper)
    (e₁ e₂ : Env)
    (h : pyTruthy d = false ∨ gatherObjects d = .ok []) :
    (convertGliffyToExcalidraw d m e₁).1 = (convertGliffyToExcalidraw d m e₂).1 := by
  unfold convertGliffyToExcalidraw
  rcases h with h | h
  · simp [h]
  · by_cases ht : pyTruthy d = true
    · simp [ht, h]
    · simp [ht]

/-- C1, witness: the empty JSON object under two different environments. -/
theorem c1_witness :
    (convertGliffyToExcalidraw (JVal.obj []) none envCounter).1 =
      (convertGliffyToExcalidraw (JVal.obj []) none envConst).1 :=
  c1_env_independent_when_no_objects (JVal.obj []) none envCounter envConst
    (Or.inl (by decide))

/-! ## Claim C2: malformed input gives the empty document, no exception -/

/-- C2, counterexample.  A truthy non-object input (the JSON string "x")
does not produce the empty document: `gliffy_data.get('stage')` raises
`AttributeError`. -/
theorem c2_counterexample :
    (convertGliffyToExcalidraw (JVal.str "x") none envCounter).1 =
      .error .attributeError ∧
    (convertGliffyToExcalidraw (JVal.str "x") none envCounter).1 ≠
      .ok createEmptyExcalidraw := by
  refine ⟨by decide, by decide⟩

/-- C2, amended: a falsy input (null, false, 0, empty string, empty array,
empty object), and a JSON object carrying neither a `stage` key nor a
`pages` key, both convert to the well-formed empty target document without
an exception; a truthy value that is not a JSON object instead raises
`AttributeError` (see the counterexample). -/
theorem c2_malformed_empty_document (d : JVal) (m : Option TidMapper) (e : Env)
    (h : pyTruthy d = false ∨
      ∃ fs : Dict, d = JVal.obj fs ∧ dget fs "stage" = none ∧
        dget fs "pages" = none) :
    (convertGliffyToExcalidraw d m e).1 = .ok createEmptyExcalidraw := by
  rcases h with h | ⟨fs, rfl, h1, h2⟩
  · unfold convertGliffyToExcalidraw
    simp [h]
  · unfold convertGliffyToExcalidraw gatherObjects
    by_cases ht : pyTruthy (JVal.obj fs) = true
    · simp [ht, pyGetAttr, h1, h2, bind, Except.bind, pure, Except.pure]
    · simp [ht]

/-- C2, witness: an object with an unrelated key and neither `stage` nor
`pages`. -/
theorem c2_witness :
    (convertGliffyToExcalidraw (JVal.obj [("foo", .num 1)]) none envCounter).1 =
      .ok createEmptyExcalidraw :=
  c2_malformed_empty_document (JVal.obj [("foo", .num 1)]) none envCounter
    (Or.inr ⟨[("foo", .num 1)], rfl, rfl, rfl⟩)

/-! ## Claim C3: per-node failures are caught locally -/

/-- C3, counterexample.  A node with a non-numeric `x` among otherwise
well-formed nodes aborts the whole conversion with `ValueError`: the
`float` call sits in `expand_gliffy_objects`, outside every try block, so
the failure is not caught per node and the other nodes are lost too. -/
theorem c3_counterexample :
    (convertGliffyToExcalidraw badXInput none envCounter).1 =
      .error .valueError := by
  decide

/-- C3, amended: a per-node failure inside a shape builder (here a
non-numeric `rotation`) is caught locally and every other node is still
converted — but the failing node is dropped entirely rather than falling
back to the minimal rectangle-with-extracted-text path (the handler re-runs
the same failing builder, and its minimal-rectangle branch is dead code) —
while a failure during flattening (non-numeric `x`, `y` or `order`)
propagates and aborts the whole document (see the counterexample). -/
theorem c3_builder_failure_dropped :
    (convertGliffyToExcalidraw badRotationInput none envCounter).1.map
      (fun d => d.elements.map (fun e => (e.etype, e.x))) =
      .ok [("rectangle", 0), ("rectangle", 40)] := by
  decide

/-! ## Claim C5: constraint resolution and the arrow scenario -/

/-- C5, confirmed.  First two conjuncts: `get_constraint_point` resolves an
indexed node id to `(x + width*px, y + height*py)` and an unindexed one to
nothing (non-fatally).  Third conjunct: the two-rectangle scenario — the
endpoints resolve to (100,50) and (300,50) (the element sits at (100,50)
with relative points [(0,0),(200,0)]), emitted as an `arrow` element whose
startBinding and endBinding carry the two rectangles' element ids. -/
theorem c5_constraint_resolution :
    (∀ (cfs : Dict) (info : List (String × Geo)) (nv : JVal) (g : Geo)
       (px py : ℚ),
       dget cfs "nodeId" = some nv → pyTruthy nv = true →
       geoGet info (pyStr nv) = some g →
       pyFloat (dgetD cfs "px" (.num (1/2))) = .ok px →
       pyFloat (dgetD cfs "py" (.num (1/2))) = .ok py →
       getConstraintPoint (.obj cfs) info =
         .ok (some (g.x + g.width * px, g.y + g.height * py))) ∧
    (∀ (cfs : Dict) (info : List (String × Geo)) (nv : JVal),
       dget cfs "nodeId" = some nv → pyTruthy nv = true →
       geoGet info (pyStr nv) = none →
       getConstraintPoint (.obj cfs) info = .ok none) ∧
    (convertGliffyToExcalidraw arrowSceneInput none envCounter).1.map
      (fun d => d.elements.map (fun e =>
        (e.id, e.etype, e.x, e.y, e.points, e.startBinding, e.endBinding))) =
      .ok [("rectangle_100000", "rectangle", 0, 0, [], none, none),
           ("rectangle_100003", "rectangle", 300, 0, [], none, none),
           ("arrow_100006", "arrow", 100, 50, [(0, 0), (200, 0)],
            some ⟨"rectangle_100000", 1/2, 0⟩,
            some ⟨"rectangle_100003", 1/2, 0⟩)] := by
  refine ⟨?_, ?_, by decide⟩
  · intro cfs info nv g px py hnode htr hgeo hpx hpy
    have hne : pyTruthy (JVal.obj cfs) = true := by
      cases cfs with
      | nil => simp [dget] at hnode
      | cons a l => simp [pyTruthy]
    unfold getConstraintPoint
    simp [hne, hnode, htr, hgeo, bind, Except.bind]
    simp only [one_div] at hpx hpy
    rw [hpx, hpy]
  · intro cfs info nv hnode htr hgeo
    have hne : pyTruthy (JVal.obj cfs) = true := by
      cases cfs with
      | nil => simp [dget] at hnode
      | cons a l => simp [pyTruthy]
    unfold getConstraintPoint
    simp [hne, hnode, htr, hgeo]

/-- C5, witness: a concrete constraint against a one-entry index. -/
theorem c5_witness :
    getConstraintPoint (.obj [("nodeId", .str "n1"), ("px", .num 1),
        ("py", .num (1/2))])
      [("n1", ⟨0, 0, 100, 100⟩)] = .ok (some (100, 50)) := by
  have h := c5_constraint_resolution.1
    [("nodeId", .str "n1"), ("px", .num 1), ("py", .num (1/2))]
    [("n1", ⟨0, 0, 100, 100⟩)] (.str "n1") ⟨0, 0, 100, 100⟩ 1 (1/2)
    rfl (by decide) rfl rfl rfl
  simpa using h

/-! ## Claim C6: stable ascending z-order sort -/

/-- Membership in a stable insertion. -/
theorem insertByOrder_mem (key : TElem → ℚ) (x z : TElem) :
    ∀ l : List TElem, z ∈ insertByOrder key x l ↔ z = x ∨ z ∈ l := by
  intro l
  induction l with
  | nil => simp [insertByOrder]
  | cons y ys ih =>
      by_cases h : key y ≤ key x
      · simp only [insertByOrder, if_pos h, List.mem_cons, ih]
        try tauto
      · simp only [insertByOrder, if_neg h, List.mem_cons]
        try tauto

/-- Stable insertion preserves sortedness by the key. -/
theorem insertByOrder_pairwise (key : TElem → ℚ) (x : TElem) :
    ∀ l : List TElem, l.Pairwise (fun a b => key a ≤ key b) →
      (insertByOrder key x l).Pairwise (fun a b => key a ≤ key b) := by
  intro l
  induction l with
  | nil => intro _; simp [insertByOrder]
  | cons y ys ih =>
      intro hp
      rw [List.pairwise_cons] at hp
      obtain ⟨hy, hys⟩ := hp
      by_cases h : key y ≤ key x
      · rw [insertByOrder, if_pos h, List.pairwise_cons]
        refine ⟨?_, ih hys⟩
        intro z hz
        rcases (insertByOrder_mem key x z ys).mp hz with rfl | hzys
        · exact h
        · exact hy z hzys
      · rw [insertByOrder, if_neg h, List.pairwise_cons]
        refine ⟨?_, List.pairwise_cons.mpr ⟨hy, hys⟩⟩
        intro z hz
        rcases List.mem_cons.mp hz with rfl | hzys
        · exact le_of_lt (lt_of_not_le h)
        · exact le_trans (le_of_lt (lt_of_not_le h)) (hy z hzys)

/-- Inserting an element of a different key leaves a key class untouched. -/
theorem insertByOrder_filter_ne (key : TElem → ℚ) (q : ℚ) (x : TElem)
    (hx : ¬ key x = q) :
    ∀ l : List TElem,
      (insertByOrder key x l).filter (fun e => key e = q) =
        l.filter (fun e => key e = q) := by
  intro l
  induction l with
  | nil => simp [insertByOrder, hx]
  | cons y ys ih =>
      by_cases h : key y ≤ key x
      · rw [insertByOrder, if_pos h]
        simp only [List.filter_cons, ih]
      · rw [insertByOrder, if_neg h]
        simp [List.filter_cons, hx]

/-- Inserting into a sorted list puts the new element last in its key
class: exactly Python's stable-sort tie behaviour. -/
theorem insertByOrder_filter_eq (key : TElem → ℚ) (q : ℚ) (x : TElem)
    (hx : key x = q) :
    ∀ l : List TElem, l.Pairwise (fun a b => key a ≤ key b) →
      (insertByOrder key x l).filter (fun e => key e = q) =
        l.filter (fun e => key e = q) ++ [x] := by
  intro l
  induction l with
  | nil => intro _; simp [insertByOrder, hx]
  | cons y ys ih =>
      intro hp
      rw [List.pairwise_cons] at hp
      obtain ⟨hy, hys⟩ := hp
      by_cases h : key y ≤ key x
      · rw [insertByOrder, if_pos h]
        by_cases hyq : key y = q
        · simp [List.filter_cons, hyq, ih hys]
        · simp [List.filter_cons, hyq, ih hys]
      · have hxy : key x < key y := lt_of_not_le h
        have hyq : ¬ key y = q := by
          intro e
          rw [e, ← hx] at hxy
          exact absurd hxy (lt_irrefl _)
        have hfil : ys.filter (fun e => key e = q) = [] := by
          rw [List.filter_eq_nil_iff]
          intro z hz
          simp only [decide_eq_true_eq]
          intro e
          have hle := hy z hz
          rw [e, ← hx] at hle
          exact absurd hle (not_le.mpr hxy)
        rw [insertByOrder, if_neg h]
        simp [List.filter_cons, hx, hyq, hfil]

/-- Folding stable insertions keeps the accumulator sorted. -/
theorem sortFold_pairwise (key : TElem → ℚ) :
    ∀ (l acc : List TElem), acc.Pairwise (fun a b => key a ≤ key b) →
      (l.foldl (fun a x => insertByOrder key x a) acc).Pairwise
        (fun a b => key a ≤ key b) := by
  intro l
  induction l with
  | nil => intro acc h; simpa using h
  | cons x xs ih =>
      intro acc h
      rw [List.foldl_cons]
      exact ih _ (insertByOrder_pairwise key x acc h)

/-- Folding stable insertions appends each key class in arrival order. -/
theorem sortFold_filter (key : TElem → ℚ) (q : ℚ) :
    ∀ (l acc : List TElem), acc.Pairwise (fun a b => key a ≤ key b) →
      (l.foldl (fun a x => insertByOrder key x a) acc).filter
          (fun e => key e = q) =
        acc.filter (fun e => key e = q) ++ l.filter (fun e => key e = q) := by
  intro l
  induction l with
  | nil => intro acc _; simp
  | cons x xs ih =>
      intro acc h
      rw [List.foldl_cons]
      by_cases hx : key x = q
      · rw [ih _ (insertByOrder_pairwise key x acc h),
            insertByOrder_filter_eq key q x hx acc h]
        simp [List.filter_cons, hx]
      · rw [ih _ (insertByOrder_pairwise key x acc h),
            insertByOrder_filter_ne key q x hx acc]
        simp [List.filter_cons, hx]

/-- C6.  The emitted list is stably sorted ascending by the sort key the
source computes (`get_element_order`, lines 745-760): the result is
pairwise non-decreasing in the key, each key class keeps its builder-pass
order (stability), and the [5, 1, 5] scenario emits B, A, C when the drawn
element ids are distinct.  The original claim's phrase "each element's
originating source `_order`" only coincides with this key when ids are
distinct: see the counterexample, where colliding random ids make
`get_element_order` mis-attribute orders and the scenario emits A, B, C. -/
theorem c6_stable_order_sort :
    (∀ (key : TElem → ℚ) (l : List TElem),
        (sortByOrder key l).Pairwise (fun a b => key a ≤ key b)) ∧
    (∀ (key : TElem → ℚ) (q : ℚ) (l : List TElem),
        (sortByOrder key l).filter (fun e => key e = q) =
          l.filter (fun e => key e = q)) ∧
    (convertGliffyToExcalidraw zOrderInput none envCounter).1.map
        (fun d => d.elements.map (fun e => (e.id, e.x))) =
      .ok [("rectangle_100003", 20), ("rectangle_100000", 0),
           ("rectangle_100006", 40)] := by
  refine ⟨?_, ?_, by decide⟩
  · intro key l
    exact sortFold_pairwise key l [] (by simp)
  · intro key q l
    simpa [sortByOrder] using sortFold_filter key q l [] (by simp)

/-- C6, counterexample.  Under a random stream that repeats, all three
rectangles draw the same element id; `get_element_order` then resolves
every element to the first node's order 5, the stable sort moves nothing,
and the [5, 1, 5] scenario emits A, B, C (x = 0, 20, 40) instead of the
claimed B, A, C — emission order is not governed by each element's own
`_order` when ids collide. -/
theorem c6_counterexample :
    (convertGliffyToExcalidraw zOrderInput none envConst).1.map
        (fun d => d.elements.map (fun e => (e.id, e.x))) =
      .ok [("rectangle_100000", 0), ("rectangle_100000", 20),
           ("rectangle_100000", 40)] ∧
    ¬ (convertGliffyToExcalidraw zOrderInput none envConst).1.map
        (fun d => d.elements.map (fun e => e.x)) = .ok [20, 0, 40] := by
  exact ⟨by decide, by decide⟩

/-! ## Claim C7: single shape with label -/

/-- C7.  The one-rectangle-with-label scenario: the output holds the
rectangle element plus one text element with text "Hello" whose
`containerId` is the rectangle's element id.  But the clamp
`0.5 * 24` to `[8, 10]` (lines 1133-1166) is applied only to the
rectangle's own inline copy of the label (fontSize 10); the container-bound
text element built by `_create_excalidraw_text` (lines 866-944) keeps the
extracted fontSize 24, contrary to the claim's "embedded wrapped text
whose fontSize is clamped to 10". -/
theorem c7_label_scene :
    (convertGliffyToExcalidraw labelSceneInput none envCounter).1.map
        (fun d => d.elements.map (fun e =>
          (e.id, e.etype, e.text, e.fontSize, e.containerId))) =
      .ok [("rectangle_100000", "rectangle", some "Hello", some 10, none),
           ("text_100003", "text", some "Hello", some 24,
            some "rectangle_100000")] := by
  decide

/-- C7, counterexample.  The embedded text element — the one whose
`containerId` is the rectangle's id — has fontSize 24, not the claimed
clamped 10. -/
theorem c7_counterexample :
    (convertGliffyToExcalidraw labelSceneInput none envCounter).1.map
        (fun d => (d.elements.filter
            (fun e => e.containerId = some "rectangle_100000")).map
          (fun e => e.fontSize)) = .ok [some 24] ∧
    ¬ (convertGliffyToExcalidraw labelSceneInput none envCounter).1.map
        (fun d => (d.elements.filter
            (fun e => e.containerId = some "rectangle_100000")).map
          (fun e => e.fontSize)) = .ok [some 10] := by
  exact ⟨by decide, by decide⟩

/-! ## Claim C8: greedy word-wrap line bound -/

/-- Every hard-split chunk has at most `mc` characters. -/
theorem hardChunksF_length (mc : ℕ) :
    ∀ (fuel : ℕ) (cs : List Char), ∀ c ∈ hardChunksF fuel mc cs,
      c.length ≤ mc := by
  intro fuel
  induction fuel with
  | zero => intro cs c hc; simp [hardChunksF] at hc
  | succ n ih =>
      intro cs c hc
      by_cases h : cs.isEmpty ∨ mc = 0
      · rw [hardChunksF, if_pos h] at hc
        simp at hc
      · rw [hardChunksF, if_neg h] at hc
        rcases List.mem_cons.mp hc with rfl | htail
        · simp [List.length_take_le]
        · exact ih _ c htail

/-- One step of the greedy loop keeps every finished line and the current
line within `max mc W`, provided the incoming word is at most `W` long. -/
theorem wrapStep_inv (mc W : ℕ) (st : List String × String) (word : String)
    (hw : word.length ≤ W)
    (h1 : ∀ l ∈ st.1, l.length ≤ max mc W)
    (h2 : st.2.length ≤ max mc W) :
    (∀ l ∈ (wrapStep mc st word).1, l.length ≤ max mc W) ∧
      (wrapStep mc st word).2.length ≤ max mc W := by
  obtain ⟨ls, current⟩ := st
  unfold wrapStep
  by_cases hc : (if current = "" then word
      else current ++ " " ++ word).length ≤ mc
  · simp only [hc, if_pos, if_true]
    exact ⟨h1, le_trans hc (le_max_left mc W)⟩
  · simp only [hc, if_false]
    by_cases hcur : current ≠ ""
    · rw [if_pos hcur]
      refine ⟨?_, le_trans hw (le_max_right mc W)⟩
      intro l hl
      rcases List.mem_append.mp hl with hl1 | hl2
      · exact h1 l hl1
      · rcases List.mem_singleton.mp hl2 with rfl
        exact h2
    · rw [if_neg hcur]
      refine ⟨?_, by simp⟩
      intro l hl
      rcases List.mem_append.mp hl with hl1 | hl2
      · exact h1 l hl1
      · obtain ⟨c, hc1, rfl⟩ := List.mem_map.mp hl2
        have := hardChunksF_length mc word.toList.length word.toList c hc1
        exact le_trans (by simpa [String.length] using this) (le_max_left mc W)

/-- Folding the greedy loop over words that are all at most `W` long keeps
the invariant. -/
theorem wrapFold_inv (mc W : ℕ) :
    ∀ (words : List String) (st : List String × String),
      (∀ w ∈ words, w.length ≤ W) →
      (∀ l ∈ st.1, l.length ≤ max mc W) →
      st.2.length ≤ max mc W →
      (∀ l ∈ (words.foldl (wrapStep mc) st).1, l.length ≤ max mc W) ∧
        (words.foldl (wrapStep mc) st).2.length ≤ max mc W := by
  intro words
  induction words with
  | nil => intro st _ h1 h2; exact ⟨h1, h2⟩
  | cons w ws ih =>
      intro st hws h1 h2
      rw [List.foldl_cons]
      have hstep := wrapStep_inv mc W st w
        (hws w (List.mem_cons_self w ws)) h1 h2
      exact ih _ (fun x hx => hws x (List.mem_cons_of_mem w hx))
        hstep.1 hstep.2

/-- One raw line of the wrapper only emits lines within `max mc W` when
its words are at most `W` long. -/
theorem wrapLine_inv (mc W : ℕ) (acc : List String) (rawLine : String)
    (hacc : ∀ l ∈ acc, l.length ≤ max mc W)
    (hword : ∀ w ∈ pyWords (pyStrip rawLine), w.length ≤ W) :
    ∀ l ∈ wrapLine mc acc rawLine, l.length ≤ max mc W := by
  unfold wrapLine
  by_cases hshort : (pyStrip rawLine).length ≤ mc
  · simp only [hshort, if_pos, if_true]
    intro l hl
    rcases List.mem_append.mp hl with hl1 | hl2
    · exact hacc l hl1
    · rcases List.mem_singleton.mp hl2 with rfl
      exact le_trans hshort (le_max_left mc W)
  · simp only [hshort, if_false]
    have hfold := wrapFold_inv mc W (pyWords (pyStrip rawLine)) (acc, "")
      hword hacc (by simp)
    by_cases hcur :
        ((pyWords (pyStrip rawLine)).foldl (wrapStep mc) (acc, "")).2 ≠ ""
    · rw [if_pos hcur]
      intro l hl
      rcases List.mem_append.mp hl with hl1 | hl2
      · exact hfold.1 l hl1
      · rcases List.mem_singleton.mp hl2 with rfl
        exact hfold.2
    · rw [if_neg hcur]
      exact hfold.1

/-- Folding the wrapper over all raw lines. -/
theorem wrapLinesFold_inv (mc W : ℕ) :
    ∀ (raws : List String) (acc : List String),
      (∀ raw ∈ raws, ∀ w ∈ pyWords (pyStrip raw), w.length ≤ W) →
      (∀ l ∈ acc, l.length ≤ max mc W) →
      ∀ l ∈ raws.foldl (wrapLine mc) acc, l.length ≤ max mc W := by
  intro raws
  induction raws with
  | nil => intro acc _ hacc; simpa using hacc
  | cons r rs ih =>
      intro acc hraw hacc
      rw [List.foldl_cons]
      exact ih _ (fun raw hr => hraw raw (List.mem_cons_of_mem r hr))
        (wrapLine_inv mc W acc r hacc (hraw r (List.mem_cons_self r rs)))

/-- C8.  The greedy wrapper (lines 276-315), on a nonempty text with a
positive budget of at least one character, splits the text into the folded
line list, and every emitted line is bounded by `max(budget, W)` where `W`
bounds the word lengths — not by the budget alone: the hard split of the
source runs only when a long word starts a fresh line, so a long word that
follows other words on its line is emitted whole (see the counterexample).
The claim's "every line has length at most the budget" holds only under
the weakened `max(budget, longest word)` bound proved here. -/
theorem c8_wrap_bound (text : String) (maxWidth fontSize : ℚ) (W : ℕ)
    (htext : ¬ text = "") (hmw : ¬ maxWidth ≤ 0) (hfs : ¬ fontSize ≤ 0)
    (hmc : 1 ≤ wrapMaxChars maxWidth fontSize)
    (hW : ∀ raw ∈ splitOnChar '\n' text,
        ∀ w ∈ pyWords (pyStrip raw), w.length ≤ W) :
    wrapTextContent text maxWidth fontSize =
      String.intercalate "\n"
        ((splitOnChar '\n' text).foldl
          (wrapLine (wrapMaxChars maxWidth fontSize).toNat) []) ∧
    ∀ l ∈ (splitOnChar '\n' text).foldl
        (wrapLine (wrapMaxChars maxWidth fontSize).toNat) [],
      l.length ≤ max (wrapMaxChars maxWidth fontSize).toNat W := by
  constructor
  · unfold wrapTextContent
    simp [htext, hmw, hfs, not_lt.mpr hmc]
  · exact wrapLinesFold_inv (wrapMaxChars maxWidth fontSize).toNat W
      (splitOnChar '\n' text) [] hW (by simp)

/-- C8, witness: the bound theorem applied to a concrete wrap. -/
theorem c8_witness :
    wrapTextContent "hello world" 15 1 =
      String.intercalate "\n"
        ((splitOnChar '\n' "hello world").foldl
          (wrapLine (wrapMaxChars 15 1).toNat) []) :=
  (c8_wrap_bound "hello world" 15 1 5 (by decide) (by decide) (by decide)
    (by decide) (by decide)).1

/-- C8, counterexample.  With budget 5, the text "ab toolongword" wraps to
"ab\ntoolongword": the eleven-character word follows "ab" on its line, so
the greedy loop pushes it whole instead of hard-splitting it, and the
second output line exceeds the budget. -/
theorem c8_counterexample :
    wrapMaxChars 15 1 = 5 ∧
    wrapTextContent "ab toolongword" 15 1 = "ab\ntoolongword" ∧
    (splitOnChar '\n' (wrapTextContent "ab toolongword" 15 1)).map
        String.length = [2, 11] ∧
    ¬ ((11 : ℤ) ≤ wrapMaxChars 15 1) := by
  exact ⟨by decide, by decide, by decide, by decide⟩

/-! ## Claim C4: arrow-label exclusion -/

set_option maxHeartbeats 1000000 in
/-- An arrow-label text element never takes a `containerId`: the container
branch of `_create_excalidraw_text` (lines 909-925) requires `not
is_arrow_label`, and the floating-label tail only moves and resizes the
element. -/
theorem createTextCore_arrow_no_container
    (gliffyObj : Dict) (objectInfo : List (String × Geo)) (ag : AG)
    (idMap : IdMap) (base : TElem) (e : TElem)
    (hIs : (match dgetD gliffyObj "_parentId" .null with
            | .null => false
            | v => (agGet ag (pyStr v)).isSome) = true)
    (h : createTextCore gliffyObj objectInfo ag idMap base = .ok (some e)) :
    e.containerId = base.containerId := by
  unfold createTextCore at h
  simp only [bind, Except.bind, pure, Except.pure, hIs, eq_self_iff_true,
    not_true, and_false, if_false, if_true] at h
  iterate 20 (all_goals try split at h)
  all_goals
    first
      | exact Except.noConfusion h
      | (injection h with h1
         first
           | exact Option.noConfusion h1
           | (injection h1 with h2
              rw [← h2]))

set_option maxHeartbeats 1000000 in
/-- Whatever text the shape builders embed came from a child whose
`_parentId` does not name any arrow-classified node: the child loop (lines
1063-1131 / 1256-1324) demands `not is_arrow_label` before accepting a
child. -/
theorem findChildText_not_arrow (allObjects : List Dict) :
    ∀ (l : List Dict) (objIdStr t : String) (fs : ℕ),
      findChildText allObjects l objIdStr = .ok (some (t, fs)) →
      ∃ c ∈ l, pyTruthy (dgetD c "_parentId" .null) = true ∧
        pyStr (dgetD c "_parentId" .null) = objIdStr ∧
        getGliffyObjectType c = some "text" ∧
        isArrowParent allObjects (dgetD c "_parentId" .null) = false ∧
        getGliffyTextContent c = .ok t := by
  intro l
  induction l with
  | nil =>
      intro objIdStr t fs h
      simp [findChildText] at h
  | cons c rest ih =>
      intro objIdStr t fs h
      unfold findChildText at h
      simp only [bind, Except.bind, pure, Except.pure] at h
      split at h
      · rename_i hcond
        split at h
        · rename_i htype
          split at h
          · rename_i harrow
            cases hct : getGliffyTextContent c with
            | error err =>
                simp only [hct] at h
                exact Except.noConfusion h
            | ok ct =>
                simp only [hct] at h
                by_cases hne : ct ≠ ""
                · rw [if_pos hne] at h
                  iterate 4 (all_goals try split at h)
                  all_goals
                    first
                      | exact Except.noConfusion h
                      | (injection h with h1
                         injection h1 with h2
                         injection h2 with h3 h4
                         exact ⟨c, List.mem_cons_self c rest, hcond.1,
                           hcond.2, htype, by simpa using harrow,
                           by rw [hct, h3]⟩)
                · rw [if_neg hne] at h
                  obtain ⟨c2, hc2, rest2⟩ := ih _ _ _ h
                  exact ⟨c2, List.mem_cons_of_mem c hc2, rest2⟩
          · obtain ⟨c2, hc2, rest2⟩ := ih _ _ _ h
            exact ⟨c2, List.mem_cons_of_mem c hc2, rest2⟩
        · obtain ⟨c2, hc2, rest2⟩ := ih _ _ _ h
          exact ⟨c2, List.mem_cons_of_mem c hc2, rest2⟩
      · obtain ⟨c2, hc2, rest2⟩ := ih _ _ _ h
        exact ⟨c2, List.mem_cons_of_mem c hc2, rest2⟩

/-- C4.  Arrow-label exclusion (lines 839-966, 1063-1131, 1256-1324): a
text element whose `_parentId` is keyed in `arrow_geometries` — the ids of
the nodes the geometry pass classified as arrows — is returned by
`_create_excalidraw_text` with `containerId` null; any text the rectangle
and ellipse builders embed is instead traced to a child whose `_parentId`
names no arrow-classified node; and in the two-rectangles-with-arrow-label
scene the label is a floating text element with null `containerId` while
both rectangles stay textless. -/
theorem c4_arrow_label_exclusion :
    (∀ (gliffyObj : Dict) (objectInfo : List (String × Geo)) (ag : AG)
        (idMap : IdMap) (env : Env) (e : TElem),
        (match dgetD gliffyObj "_parentId" .null with
         | .null => false
         | v => (agGet ag (pyStr v)).isSome) = true →
        (createExcalidrawText gliffyObj objectInfo ag idMap env).1 =
          .ok (some e) →
        e.containerId = none) ∧
    (∀ (allObjects l : List Dict) (objIdStr t : String) (fs : ℕ),
        findChildText allObjects l objIdStr = .ok (some (t, fs)) →
        ∃ c ∈ l, pyTruthy (dgetD c "_parentId" .null) = true ∧
          pyStr (dgetD c "_parentId" .null) = objIdStr ∧
          getGliffyObjectType c = some "text" ∧
          isArrowParent allObjects (dgetD c "_parentId" .null) = false ∧
          getGliffyTextContent c = .ok t) ∧
    (convertGliffyToExcalidraw arrowLabelInput none envCounter).1.map
        (fun d => d.elements.map (fun e =>
          (e.id, e.etype, e.text, e.containerId))) =
      .ok [("rectangle_100000", "rectangle", none, none),
           ("rectangle_100003", "rectangle", none, none),
           ("text_100006", "text", some "lbl", none),
           ("arrow_100009", "arrow", none, none)] := by
  refine ⟨?_, fun a l o t fs h => findChildText_not_arrow a l o t fs h,
    by decide⟩
  intro gliffyObj objectInfo ag idMap env e hIs h
  rcases hpair : newExcalidrawBase "text" env with ⟨base, env2⟩
  unfold createExcalidrawText at h
  simp only [hpair] at h
  have hc := createTextCore_arrow_no_container gliffyObj objectInfo ag
    idMap base e hIs h
  have hb : (newExcalidrawBase "text" env).1.containerId = none := rfl
  rw [hpair] at hb
  rw [hc, hb]

/-! ## Claim C9: the appState of every returned document -/

/-- The viewport pass only ever adds `scrollX`, `scrollY` and `zoom`;
`gridSize` and `viewBackgroundColor` pass through unchanged. -/
theorem applyViewport_keeps_static (doc : ExDoc) :
    (applyViewport doc).appState.gridSize = doc.appState.gridSize ∧
      (applyViewport doc).appState.viewBackgroundColor =
        doc.appState.viewBackgroundColor := by
  unfold applyViewport
  iterate 3 (all_goals try split)
  all_goals exact ⟨rfl, rfl⟩

/-- C9 (amended).  Every successfully returned document carries
`gridSize` null and `viewBackgroundColor` "#ffffff"; the viewport block
(lines 769-817) fills in `scrollX`, `scrollY` and `zoom` whenever the
elements offer at least one sample point — as in the one-rectangle scene —
but the empty document of `_create_empty_excalidraw` (lines 822-836) stops
at the two static keys, so the claim's "including the empty document" part
fails (see the counterexample). -/
theorem c9_appstate :
    (∀ (input : JVal) (tm : Option TidMapper) (env : Env) (doc : ExDoc),
        (convertGliffyToExcalidraw input tm env).1 = .ok doc →
        doc.appState.gridSize = none ∧
          doc.appState.viewBackgroundColor = "#ffffff") ∧
    (∀ (doc : ExDoc) (x y : ℚ) (xs ys : List ℚ),
        viewportXs doc.elements = (x :: xs, y :: ys) →
        (applyViewport doc).appState.scrollX.isSome = true ∧
          (applyViewport doc).appState.scrollY.isSome = true ∧
          (applyViewport doc).appState.zoom.isSome = true) ∧
    (convertGliffyToExcalidraw oneRectInput none envCounter).1.map
        (fun d => (d.appState.gridSize, d.appState.viewBackgroundColor,
          d.appState.scrollX.isSome, d.appState.scrollY.isSome,
          d.appState.zoom.isSome)) =
      .ok (none, "#ffffff", true, true, true) := by
  refine ⟨?_, ?_, by decide⟩
  · intro input tm env doc h
    unfold convertGliffyToExcalidraw at h
    iterate 14 (all_goals try split at h)
    all_goals
      first
        | exact Except.noConfusion h
        | (injection h with h1
           rw [← h1]
           iterate 3 (all_goals try split)
           all_goals
             first
               | exact ⟨rfl, rfl⟩
               | exact ⟨(applyViewport_keeps_static _).1.trans rfl,
                   (applyViewport_keeps_static _).2.trans rfl⟩)
  · intro doc x y xs ys h
    unfold applyViewport
    rw [h]
    exact ⟨rfl, rfl, rfl⟩

/-- C9, counterexample.  A document whose scene holds no objects converts
to the empty document, whose appState has no `scrollX`, `scrollY` or
`zoom`. -/
theorem c9_counterexample :
    (convertGliffyToExcalidraw noObjectsInput none envCounter).1 =
      .ok createEmptyExcalidraw ∧
    createEmptyExcalidraw.appState.scrollX = none ∧
    createEmptyExcalidraw.appState.scrollY = none ∧
    createEmptyExcalidraw.appState.zoom = none := by
  exact ⟨by decide, rfl, rfl, rfl⟩

/-! ## Claim C10: hidden nodes -/

/-- C10.  A hidden node (`hidden` truthy) is skipped by all four builder
passes — shapes (lines 459-473), arrow geometries (603-610), texts
(667-672) and arrows (692-697) leave their state, and so the `id_map`,
untouched — yet `object_info` (lines 445-455) indexes it all the same.  In
the hidden-rectangle scene the hidden node's geometry is indexed while the
`id_map` only maps the visible rectangle; the visible line still resolves
its start endpoint from the hidden geometry, is emitted as an arrow from
(100, 50), and carries a null `startBinding` next to a real
`endBinding`. -/
theorem c10_hidden_nodes :
    (∀ (allObjects : List Dict) (oi : List (String × Geo))
        (m : Option TidMapper) (st : BuildState) (obj : Dict) (env : Env),
        pyTruthy (dgetD obj "hidden" (.bool false)) = true →
        pass1Step allObjects oi m st obj env = (st, env)) ∧
    (∀ (oi : List (String × Geo)) (ag : AG) (obj : Dict),
        pyTruthy (dgetD obj "hidden" (.bool false)) = true →
        geomPassStep oi ag obj = .ok ag) ∧
    (∀ (oi : List (String × Geo)) (ag : AG) (st : BuildState) (obj : Dict)
        (env : Env),
        pyTruthy (dgetD obj "hidden" (.bool false)) = true →
        textPassStep oi ag st obj env = (st, env)) ∧
    (∀ (oi : List (String × Geo)) (stag : BuildState × AG) (obj : Dict)
        (env : Env),
        pyTruthy (dgetD obj "hidden" (.bool false)) = true →
        arrowPassStep oi stag obj env = (stag, env)) ∧
    ((gatherObjects hiddenSceneInput).map (fun objs =>
        ((buildObjectInfo objs []).map (fun oi => geoGet oi "1"),
         (buildObjectInfo objs []).map (fun oi =>
           (pass1 objs oi none objs initialBuildState envCounter).1.idMap))) =
      .ok (.ok (some ⟨0, 0, 100, 100⟩),
           .ok [("2", "rectangle_100000")])) ∧
    ((convertGliffyToExcalidraw hiddenSceneInput none envCounter).1.map
        (fun d => d.elements.map (fun e =>
          (e.id, e.etype, e.x, e.y, e.points, e.startBinding,
           e.endBinding))) =
      .ok [("rectangle_100000", "rectangle", 300, 0, [], none, none),
           ("arrow_100003", "arrow", 100, 50, [(0, 0), (200, 0)], none,
            some ⟨"rectangle_100000", 1/2, 0⟩)]) := by
  refine ⟨?_, ?_, ?_, ?_, by decide, by decide⟩
  · intro allObjects oi m st obj env h
    unfold pass1Step
    by_cases he : obj.isEmpty <;> simp [he, h]
  · intro oi ag obj h
    unfold geomPassStep
    by_cases he : obj.isEmpty <;> simp [he, h, bind, Except.bind, pure,
      Except.pure]
  · intro oi ag st obj env h
    unfold textPassStep
    by_cases he : obj.isEmpty <;> simp [he, h]
  · intro oi stag obj env h
    obtain ⟨st, ag⟩ := stag
    unfold arrowPassStep
    by_cases he : obj.isEmpty <;> simp [he, h]

